import Mathlib

/-!
# Notle Bluetooth power / low-power-mode driver and OMAP PRCM helpers

A shallow embedding of

* `arch/arm/mach-omap2/board-notle-bluetooth.c` (rfkill power switch and the
  BCM4330 low-power-mode state machine), and
* `arch/arm/mach-omap2/prcm.c` (reset-source latch, restart path and the
  IDLEST polling helper),

followed by theorems about them.  File-scope C variables become fields of a
state record, every call into the rest of the kernel is recorded in an effect
log, and values the C code obtains from the hardware (a sampled GPIO level, a
register read, a return code) are parameters of the embedded function.
-/

namespace Notle

/-! ## Bluetooth driver: data model -/

/-- The four GPIO lines the driver names (`BT_REG_GPIO`, `BT_RESET_GPIO`,
`BT_WAKE_GPIO`, `BT_HOST_WAKE_GPIO`); the board numbers behind the names come
from `board-notle.h` and are not needed. -/
inductive Gpio
  | BT_REG_GPIO
  | BT_RESET_GPIO
  | BT_WAKE_GPIO
  | BT_HOST_WAKE_GPIO
  deriving DecidableEq, Repr

/-- Level trigger programmed on the host-wake interrupt. -/
inductive IrqTrigger
  | IRQF_TRIGGER_HIGH
  | IRQF_TRIGGER_LOW
  deriving DecidableEq, Repr

/-- The two suspend-blocking locks of `struct bcm_bt_lpm`. -/
inductive LockId
  | bcm_wake_lock
  | host_wake_lock
  deriving DecidableEq, Repr

/-- Return value of an hrtimer callback. -/
inductive HrtimerRestart
  | HRTIMER_NORESTART
  | HRTIMER_RESTART
  deriving DecidableEq, Repr

/-- Calls the driver makes into the rest of the kernel, in program order. -/
inductive Event
  | gpio_set_value (gpio : Gpio) (value : Int)
  | gpio_direction_output (gpio : Gpio) (value : Int)
  | gpio_direction_input (gpio : Gpio)
  | gpio_request (gpio : Gpio)
  | gpio_free (gpio : Gpio)
  | regulator_enable
  | regulator_disable
  | wake_lock (l : LockId)
  | wake_unlock (l : LockId)
  | wake_lock_timeout (l : LockId) (timeout : Nat)
  | wake_lock_init (l : LockId)
  | omap_serial_ext_uart_enable (port : Nat)
  | omap_serial_ext_uart_disable (port : Nat)
  | irq_set_irq_type (t : IrqTrigger)
  | request_irq (t : IrqTrigger)
  | free_irq
  | irq_set_irq_wake (enable : Int)
  | hrtimer_init
  | hrtimer_try_to_cancel
  | hrtimer_start (delay : Nat)
  | hrtimer_callback (ktime : Nat)
  | dev_warn
  | spin_lock_irqsave (uport : Nat)
  | spin_unlock_irqrestore (uport : Nat)
  deriving DecidableEq, Repr

/-- Modelled from the spec: the state of a suspend-blocking lock
(`struct wake_lock`, whose implementation is not part of these sources).
A lock is released, held until `wake_unlock`, or held for a bounded
number of jiffies after which it releases itself. -/
inductive WakeLock
  | inactive
  | active
  | timed (timeout : Nat)
  deriving DecidableEq, Repr

/-- Whether the lock currently blocks suspend. -/
def WakeLock.held : WakeLock → Bool
  | .inactive => false
  | .active => true
  | .timed timeout => decide (0 < timeout)

/-- The lock after `elapsed` jiffies without any call on it: only a timed
lock changes, counting down and releasing itself once its timeout is used up. -/
def WakeLock.after : WakeLock → Nat → WakeLock
  | .inactive, _ => .inactive
  | .active, _ => .active
  | .timed timeout, elapsed =>
      if elapsed < timeout then .timed (timeout - elapsed) else .inactive

/-- File-scope variables of `board-notle-bluetooth.c` (with the fields of the
singleton `bt_lpm`), the pieces of kernel and hardware state the driver
drives, and the log of calls made so far.  Pointers are `Option`s, `none`
being `NULL`; `clk32kg_reg` only records whether the regulator handle is
non-`NULL`. -/
structure BtState where
  clk32kg_reg : Bool
  bt_enabled : Bool
  host_wake_uart_enabled : Bool
  bcm_wake_uart_enabled : Bool
  bcm_wake : Int
  host_wake : Int
  enter_lpm_timer : Option Nat
  enter_lpm_delay : Nat
  uport : Option Nat
  bcm_wake_lock : WakeLock
  host_wake_lock : WakeLock
  pdev : Option Nat
  gpio_bt_reg : Bool
  gpio_bt_reset : Bool
  gpio_bt_wake : Bool
  irq_type : IrqTrigger
  ktime : Nat
  log : List Event
  deriving DecidableEq, Repr

/-- `UART_TIMEOUT_SEC`. -/
def UART_TIMEOUT_SEC : Nat := 1

/-- `HOST_WAKE_TIMEOUT = HZ/2`, in jiffies; `HZ` is the kernel tick rate, a
build-time constant that is a parameter here. -/
def HOST_WAKE_TIMEOUT (HZ : Nat) : Nat := HZ / 2

/-- `NSEC_PER_SEC`. -/
def NSEC_PER_SEC : Nat := 1000000000

/-- `ktime_set(secs, nsecs)` as a number of nanoseconds. -/
def ktime_set (secs nsecs : Nat) : Nat := secs * NSEC_PER_SEC + nsecs

/-! ## Kernel primitives used by the driver -/

/-- Append one call to the effect log. -/
def BtState.emit (s : BtState) (e : Event) : BtState :=
  { s with log := s.log ++ [e] }

/-- The C conversion of an `int` to `bool`. -/
def int_to_bool (v : Int) : Bool := decide (v ≠ 0)

/-- Modelled from the spec: `gpio_set_value` drives an output line high for a
non-zero value and low for zero. -/
def gpio_set_value (s : BtState) (gpio : Gpio) (value : Int) : BtState :=
  let s := s.emit (.gpio_set_value gpio value)
  match gpio with
  | Gpio.BT_REG_GPIO => { s with gpio_bt_reg := int_to_bool value }
  | Gpio.BT_RESET_GPIO => { s with gpio_bt_reset := int_to_bool value }
  | Gpio.BT_WAKE_GPIO => { s with gpio_bt_wake := int_to_bool value }
  | Gpio.BT_HOST_WAKE_GPIO => s

/-- Modelled from the spec: `gpio_direction_output` makes the line an output
driving the given value. -/
def gpio_direction_output (s : BtState) (gpio : Gpio) (value : Int) : BtState :=
  let s := s.emit (.gpio_direction_output gpio value)
  match gpio with
  | Gpio.BT_REG_GPIO => { s with gpio_bt_reg := int_to_bool value }
  | Gpio.BT_RESET_GPIO => { s with gpio_bt_reset := int_to_bool value }
  | Gpio.BT_WAKE_GPIO => { s with gpio_bt_wake := int_to_bool value }
  | Gpio.BT_HOST_WAKE_GPIO => s

/-- Write access to the two lock fields of `bt_lpm`. -/
def BtState.setLock (s : BtState) (l : LockId) (w : WakeLock) : BtState :=
  match l with
  | .bcm_wake_lock => { s with bcm_wake_lock := w }
  | .host_wake_lock => { s with host_wake_lock := w }

/-- Modelled from the spec: `wake_lock` holds the lock until `wake_unlock`. -/
def wake_lock (s : BtState) (l : LockId) : BtState :=
  (s.emit (.wake_lock l)).setLock l .active

/-- Modelled from the spec: `wake_unlock` releases the lock. -/
def wake_unlock (s : BtState) (l : LockId) : BtState :=
  (s.emit (.wake_unlock l)).setLock l .inactive

/-- Modelled from the spec: `wake_lock_timeout` replaces whatever hold there
was by a time-bounded one that releases itself after `timeout` jiffies. -/
def wake_lock_timeout (s : BtState) (l : LockId) (timeout : Nat) : BtState :=
  (s.emit (.wake_lock_timeout l timeout)).setLock l (.timed timeout)

/-- Modelled from the spec: `wake_lock_init` leaves the lock released. -/
def wake_lock_init (s : BtState) (l : LockId) : BtState :=
  (s.emit (.wake_lock_init l)).setLock l .inactive

/-- The UART clock gate is switched on (only the call is recorded). -/
def omap_serial_ext_uart_enable (s : BtState) (port : Nat) : BtState :=
  s.emit (.omap_serial_ext_uart_enable port)

/-- The UART clock gate is switched off (only the call is recorded). -/
def omap_serial_ext_uart_disable (s : BtState) (port : Nat) : BtState :=
  s.emit (.omap_serial_ext_uart_disable port)

/-- The 32kHz clock regulator is enabled (only the call is recorded). -/
def regulator_enable (s : BtState) : BtState := s.emit .regulator_enable

/-- The 32kHz clock regulator is disabled (only the call is recorded). -/
def regulator_disable (s : BtState) : BtState := s.emit .regulator_disable

/-- Modelled from the spec: `irq_set_irq_type` reprograms the level the
host-wake interrupt waits for. -/
def irq_set_irq_type (s : BtState) (t : IrqTrigger) : BtState :=
  { s.emit (.irq_set_irq_type t) with irq_type := t }

/-- Modelled from the spec: `hrtimer_try_to_cancel` removes a pending timer;
it returns 1 when one was pending and 0 when none was (the third result, -1
for a callback running at this very moment, does not arise when steps are
atomic). -/
def hrtimer_try_to_cancel (s : BtState) : Int × BtState :=
  let rc : Int := if s.enter_lpm_timer.isSome then 1 else 0
  (rc, { s.emit .hrtimer_try_to_cancel with enter_lpm_timer := none })

/-- Modelled from the spec: `hrtimer_start` in `HRTIMER_MODE_REL` makes the
timer pending, to expire `delay` after the current time. -/
def hrtimer_start (s : BtState) (delay : Nat) : BtState :=
  { s.emit (.hrtimer_start delay) with enter_lpm_timer := some (s.ktime + delay) }

/-! ## Bluetooth driver: the embedded functions -/

/-- `set_host_wake_locked(host_wake)`. -/
def set_host_wake_locked (HZ : Nat) (s : BtState) (host_wake : Int) : BtState :=
  if host_wake = s.host_wake then s else
  let s := { s with host_wake := host_wake }
  let s :=
    if host_wake ≠ 0 then
      let s := wake_lock s .host_wake_lock
      if !s.host_wake_uart_enabled then omap_serial_ext_uart_enable s 1 else s
    else
      if s.host_wake_uart_enabled then omap_serial_ext_uart_disable s 1 else s
  let s := { s with host_wake_uart_enabled := int_to_bool host_wake }
  if host_wake = 0 then
    wake_lock_timeout s .host_wake_lock (HOST_WAKE_TIMEOUT HZ)
  else s

/-- `set_bcm_wake_locked(bcm_wake)`. -/
def set_bcm_wake_locked (s : BtState) (bcm_wake : Int) : BtState :=
  if s.bcm_wake = bcm_wake then s else
  let s := { s with bcm_wake := bcm_wake }
  let s :=
    if bcm_wake ≠ 0 then
      let s := wake_lock s .bcm_wake_lock
      if !s.bcm_wake_uart_enabled then omap_serial_ext_uart_enable s 1 else s
    else s
  let s := gpio_set_value s Gpio.BT_WAKE_GPIO bcm_wake
  let s :=
    if bcm_wake = 0 ∧ s.bcm_wake_uart_enabled then omap_serial_ext_uart_disable s 1
    else s
  let s := { s with bcm_wake_uart_enabled := int_to_bool bcm_wake }
  if bcm_wake = 0 then wake_unlock s .bcm_wake_lock else s

/-- `bcm4330_bt_rfkill_set_power(data, blocked)`; the return value is
always 0 and `data` is unused. -/
def bcm4330_bt_rfkill_set_power (HZ : Nat) (s : BtState) (blocked : Bool) : BtState :=
  let s :=
    if !blocked then
      let s := if s.clk32kg_reg ∧ !s.bt_enabled then regulator_enable s else s
      let s := gpio_set_value s Gpio.BT_REG_GPIO 1
      gpio_set_value s Gpio.BT_RESET_GPIO 1
    else
      let s := gpio_set_value s Gpio.BT_RESET_GPIO 0
      let s := set_host_wake_locked HZ s 0
      let s := gpio_set_value s Gpio.BT_REG_GPIO 0
      if s.clk32kg_reg ∧ s.bt_enabled then regulator_disable s else s
  { s with bt_enabled := !blocked }

/-- `enter_lpm(timer)`, the idle-timer callback.  It runs under the lock of
the UART port saved by the last `bcm_bt_lpm_exit_lpm_locked`; the timer is
only ever armed after a port was saved. -/
def enter_lpm (s : BtState) : BtState × HrtimerRestart :=
  let port := s.uport.getD 0
  let s := s.emit (.spin_lock_irqsave port)
  let s := set_bcm_wake_locked s 0
  let s := s.emit (.spin_unlock_irqrestore port)
  (s, .HRTIMER_NORESTART)

/-- `bcm_bt_lpm_exit_lpm_locked(uport)`; the UART driver passes its own
port. -/
def bcm_bt_lpm_exit_lpm_locked (s : BtState) (uport : Nat) : BtState :=
  let s := { s with uport := some uport }
  let (rc, s) := hrtimer_try_to_cancel s
  let s := if rc = -1 then s.emit .dev_warn else s
  let s := set_bcm_wake_locked s 1
  hrtimer_start s s.enter_lpm_delay

/-- `host_wake_isr(irq, dev)`; `level` is what `gpio_get_value` samples on
`BT_HOST_WAKE_GPIO`.  The return value is always `IRQ_HANDLED`. -/
def host_wake_isr (HZ : Nat) (s : BtState) (level : Int) : BtState :=
  let host_wake := level
  let s := irq_set_irq_type s
    (if host_wake ≠ 0 then .IRQF_TRIGGER_LOW else .IRQF_TRIGGER_HIGH)
  match s.uport with
  | none => { s with host_wake := host_wake }
  | some port =>
    let s := s.emit (.spin_lock_irqsave port)
    let s := set_host_wake_locked HZ s host_wake
    s.emit (.spin_unlock_irqrestore port)

/-- `bcm_bt_lpm_init(pdev)`; the four `rc_` arguments are the return codes of
the two `gpio_request` calls, of `request_irq` and of `irq_set_irq_wake`.
The result pairs the new state with the function's return code. -/
def bcm_bt_lpm_init (s : BtState) (pdev : Nat)
    (rc_wake rc_host_wake rc_request_irq rc_irq_wake : Int) : BtState × Int :=
  let s := s.emit (.gpio_request Gpio.BT_WAKE_GPIO)
  if rc_wake ≠ 0 then (s, rc_wake) else
  let s := s.emit (.gpio_request Gpio.BT_HOST_WAKE_GPIO)
  if rc_host_wake ≠ 0 then (s.emit (.gpio_free Gpio.BT_WAKE_GPIO), rc_host_wake) else
  let s := gpio_direction_output s Gpio.BT_WAKE_GPIO 0
  let s := s.emit (.gpio_direction_input Gpio.BT_HOST_WAKE_GPIO)
  let s := { s.emit .hrtimer_init with enter_lpm_timer := none }
  let s := { s with enter_lpm_delay := ktime_set UART_TIMEOUT_SEC 0 }
  let s := { s with host_wake := -1 }
  let s := { s with bcm_wake := -1 }
  let s := s.emit (.request_irq .IRQF_TRIGGER_HIGH)
  if rc_request_irq ≠ 0 then
    ((s.emit (.gpio_free Gpio.BT_WAKE_GPIO)).emit (.gpio_free Gpio.BT_HOST_WAKE_GPIO),
      rc_request_irq)
  else
  let s := { s with irq_type := .IRQF_TRIGGER_HIGH }
  let s := s.emit (.irq_set_irq_wake 1)
  if rc_irq_wake ≠ 0 then
    (((s.emit .free_irq).emit (.gpio_free Gpio.BT_WAKE_GPIO)).emit
      (.gpio_free Gpio.BT_HOST_WAKE_GPIO), rc_irq_wake)
  else
  let s := wake_lock_init s .bcm_wake_lock
  let s := wake_lock_init s .host_wake_lock
  ({ s with pdev := some pdev }, rc_irq_wake)

/-- `bcm4330_bluetooth_init()`: the only statement acting on the driver's
variables clears `bt_enabled`. -/
def bcm4330_bluetooth_init (s : BtState) : BtState :=
  { s with bt_enabled := false }

/-- The state a successful `bcm_bt_lpm_init` leaves, from any earlier state. -/
def postInit (s : BtState) (pdev : Nat) : BtState :=
  (bcm_bt_lpm_init s pdev 0 0 0 0).1

/-- The driver's variables when the module is loaded: C zero-initialises
file-scope objects.  `clk` tells whether probing found the 32kHz regulator. -/
def bootState (clk : Bool) : BtState :=
  { clk32kg_reg := clk, bt_enabled := false, host_wake_uart_enabled := false,
    bcm_wake_uart_enabled := false, bcm_wake := 0, host_wake := 0,
    enter_lpm_timer := none, enter_lpm_delay := 0, uport := none,
    bcm_wake_lock := .inactive, host_wake_lock := .inactive, pdev := none,
    gpio_bt_reg := false, gpio_bt_reset := false, gpio_bt_wake := false,
    irq_type := .IRQF_TRIGGER_HIGH, ktime := 0, log := [] }

/-! ## Bluetooth driver: timer expiry and step models -/

/-- Modelled from the spec: expiry of the pending idle timer.  The timer
stops being pending, the clock stands at the expiry time, the callback
`enter_lpm` runs, and the timer is queued again only if the callback asks
for it with `HRTIMER_RESTART`.  Nothing happens when no timer is pending. -/
def hrtimer_run (s : BtState) : BtState :=
  match s.enter_lpm_timer with
  | none => s
  | some expiry =>
    let s := { s with ktime := max s.ktime expiry, enter_lpm_timer := none }
    let s := s.emit (.hrtimer_callback s.ktime)
    match enter_lpm s with
    | (s, .HRTIMER_NORESTART) => s
    | (s, .HRTIMER_RESTART) => { s with enter_lpm_timer := some expiry }

/-- Modelled from the spec: the clock advances to time `t`; a pending timer
whose expiry is not later than `t` fires on the way. -/
def run_until (s : BtState) (t : Nat) : BtState :=
  let s :=
    match s.enter_lpm_timer with
    | some expiry => if expiry ≤ t then hrtimer_run s else s
    | none => s
  { s with ktime := max s.ktime t }

/-- The state observed at time `t` when `bcm_bt_lpm_exit_lpm_locked` is
called at the listed times (each paired with the UART port passed), the
clock running in between: calls not later than `t` are made in order, then
the clock runs on to `t`. -/
def stateAt (s : BtState) : List (Nat × Nat) → Nat → BtState
  | [], t => run_until s t
  | (tc, port) :: rest, t =>
      if tc ≤ t then stateAt (bcm_bt_lpm_exit_lpm_locked (run_until s tc) port) rest t
      else run_until s t

/-- Times at which the idle-timer callback ran, read off an effect log. -/
def firings : List Event → List Nat
  | [] => []
  | .hrtimer_callback k :: es => k :: firings es
  | _ :: es => firings es

/-- Time of the last call of a non-empty call list (`t0` for an empty one). -/
def lastCall (t0 : Nat) : List (Nat × Nat) → Nat
  | [] => t0
  | (tc, _) :: rest => lastCall tc rest

/-- Call times increase strictly and consecutive calls are less than `delay`
apart, the first one being compared with `t0`. -/
def closelySpaced (delay : Nat) (t0 : Nat) : List (Nat × Nat) → Bool
  | [] => true
  | (tc, _) :: rest =>
      decide (t0 < tc) && decide (tc < t0 + delay) && closelySpaced delay tc rest

/-- The entry points that drive the low-power-mode state machine. -/
inductive LpmStep
  | exit_lpm (uport : Nat)
  | enter_lpm
  | host_wake_isr (level : Int)
  | set_power (blocked : Bool)
  deriving DecidableEq, Repr

/-- Effect of one step; `enter_lpm` is the firing of the idle timer. -/
def runStep (HZ : Nat) (s : BtState) : LpmStep → BtState
  | .exit_lpm uport => bcm_bt_lpm_exit_lpm_locked s uport
  | .enter_lpm => hrtimer_run s
  | .host_wake_isr level => host_wake_isr HZ s level
  | .set_power blocked => bcm4330_bt_rfkill_set_power HZ s blocked

/-- Effect of a sequence of steps. -/
def runSteps (HZ : Nat) (s : BtState) (steps : List LpmStep) : BtState :=
  steps.foldl (runStep HZ) s

/-- The step is a firing of `host_wake_isr` that finds no UART port saved in
`bt_lpm.uport` and samples the level 1. -/
def cachesHigh (s : BtState) : LpmStep → Bool
  | .host_wake_isr level => !s.uport.isSome && decide (level = 1)
  | _ => false

/-- The mark "`bt_lpm.host_wake` holds a 1 that a firing of `host_wake_isr`
with no UART port saved cached there", after one more step: a firing with no
port saved that samples 1 sets the mark, and a mark already set stays as long
as `bt_lpm.host_wake` is still 1 after the step. -/
def cachedAfter (HZ : Nat) (s : BtState) (cached : Bool) (step : LpmStep) : Bool :=
  cachesHigh s step || (cached && decide ((runStep HZ s step).host_wake = 1))

/-- The mark of `cachedAfter` at the end of a sequence of steps, `cached`
being the mark at its start. -/
def hostWakeCached (HZ : Nat) (s : BtState) (cached : Bool) : List LpmStep → Bool
  | [] => cached
  | step :: rest => hostWakeCached HZ (runStep HZ s step) (cachedAfter HZ s cached step) rest

/-- Every `host_wake_isr` step of the sequence finds a UART port saved in
`bt_lpm.uport` at the moment it fires, or samples a level other than 1. -/
def isrPortOrNotHigh (HZ : Nat) (s : BtState) : List LpmStep → Bool
  | [] => true
  | step :: rest =>
      (match step with
        | .host_wake_isr level => s.uport.isSome || decide (level ≠ 1)
        | _ => true) && isrPortOrNotHigh HZ (runStep HZ s step) rest

/-- Effect of a sequence of `bcm4330_bt_rfkill_set_power` calls. -/
def powerCalls (HZ : Nat) (s : BtState) (blocked : List Bool) : BtState :=
  blocked.foldl (bcm4330_bt_rfkill_set_power HZ) s

/-- Contribution of one call to the regulator's enable count. -/
def regulatorDelta : Event → Int
  | .regulator_enable => 1
  | .regulator_disable => -1
  | _ => 0

/-- Number of `regulator_enable` calls minus number of `regulator_disable`
calls in an effect log. -/
def regulatorBalance (log : List Event) : Int :=
  (log.map regulatorDelta).sum

/-- Number of regulator enables the driver considers outstanding in state `s`:
one when the regulator is present and Bluetooth is enabled, none otherwise. -/
def regulatorHeld (s : BtState) : Int :=
  if s.clk32kg_reg = true ∧ s.bt_enabled = true then 1 else 0

/-- The calls logged between state `s` and a later state `s2`. -/
def emitted (s s2 : BtState) : List Event :=
  s2.log.drop s.log.length

/-- What `set_host_wake_locked(0)` logs when called in state `s`. -/
def hostWakeClear (HZ : Nat) (s : BtState) : List Event :=
  if s.host_wake = 0 then []
  else
    (if s.host_wake_uart_enabled then [Event.omap_serial_ext_uart_disable 1] else [])
      ++ [Event.wake_lock_timeout .host_wake_lock (HOST_WAKE_TIMEOUT HZ)]

/-- A state of normal operation, used as a concrete input: the driver is
initialised with the regulator present, Bluetooth is switched on, the UART
has started a transfer and the chip has raised its wake line. -/
def busyState : BtState :=
  runSteps 128 (postInit (bootState true) 0)
    [.set_power false, .exit_lpm 1, .host_wake_isr 1]

/-! ## PRCM: data model -/

/-- What `prcm.c` takes from headers and from SoC detection, none of which is
part of these sources: the results of the `cpu_is_omap*()` tests and of
`omap_rev()`, the two revision codes the restart path compares with, and the
register coordinates it passes on. -/
structure Platform where
  cpu_is_omap24xx : Bool
  cpu_is_omap34xx : Bool
  cpu_is_omap44xx : Bool
  cpu_is_omap54xx : Bool
  cpu_is_omap543x : Bool
  omap_rev : Nat
  OMAP5430_REV_ES1_0 : Nat
  OMAP5432_REV_ES1_0 : Nat
  WKUP_MOD : Int
  OMAP3430_GR_MOD : Int
  OMAP2_RM_RSTST : Nat
  OMAP2_RM_RSTCTRL : Nat
  OMAP_RST_DPLL3_MASK : Nat
  OMAP4430_PRM_DEVICE_INST : Int
  OMAP4_PRM_RSTST_OFFSET : Nat
  OMAP54XX_PRM_DEVICE_INST : Int
  OMAP54XX_PRM_RSTST_OFFSET : Nat
  deriving DecidableEq, Repr

/-- Calls `prcm.c` makes into the rest of the kernel, in program order. -/
inductive PrcmEvent
  | omap2_prm_read_mod_reg (module : Int) (idx : Nat)
  | omap2_prm_write_mod_reg (val : Nat) (module : Int) (idx : Nat)
  | omap2_prm_set_mod_reg_bits (bits : Nat) (module : Int) (idx : Nat)
  | omap4_prm_read_inst_reg (inst : Int) (reg : Nat)
  | omap4_prm_write_inst_reg (val : Nat) (inst : Int) (reg : Nat)
  | omap2xxx_clk_prepare_for_reboot
  | omap3_ctrl_write_boot_mode (bootmode : Nat)
  | printk (msg : String)
  | omap4_prminst_global_cold_sw_reset
  | omap4_prminst_global_warm_sw_reset
  | omap4_pm_cold_reset (reason : String)
  | BUG
  | WARN_ON
  | pr_debug (loops : Nat)
  | pr_err (tries : Nat)
  | omap4_prm_base_init
  | omap4_cm_base_init
  deriving DecidableEq, Repr

/-- File-scope variables of `prcm.c`; the four base pointers are `Option`s,
`none` being `NULL`. -/
structure PrcmState where
  prm_base : Option Nat
  cm_base : Option Nat
  cm2_base : Option Nat
  prcm_mpu_base : Option Nat
  reset_reason : Nat
  deriving DecidableEq, Repr

/-- The fields of `struct omap_globals` that `omap2_set_globals_prcm` reads. -/
structure OmapGlobals where
  prm : Option Nat
  cm : Option Nat
  cm2 : Option Nat
  prcm_mpu : Option Nat
  deriving DecidableEq, Repr

/-- How a run of `omap_prcm_restart` ends: the function returns, a reset
call takes the SoC down and never comes back, or `BUG()` stops the kernel. -/
inductive RestartEnd
  | returned
  | reset
  | bug
  deriving DecidableEq, Repr

/-- What a call of `omap2_cm_wait_idlest` yields: the return value, the number
of reads of the IDLEST register it made, and what it logged. -/
structure IdlestRun where
  ret : Int
  reads : Nat
  log : List PrcmEvent
  deriving DecidableEq, Repr

/-- `MAX_MODULE_ENABLE_WAIT`. -/
def MAX_MODULE_ENABLE_WAIT : Nat := 100000

/-- Conversion of a value to C `int` (32 bits, two's complement). -/
def s32 (x : Int) : Int :=
  if x % 4294967296 < 2147483648 then x % 4294967296 else x % 4294967296 - 4294967296

/-- Conversion of a value to C `u32`. -/
def u32 (x : Int) : Nat := (x % 4294967296).toNat

/-- Conversion of a value to C `s16`. -/
def s16 (x : Int) : Int :=
  if x % 65536 < 32768 then x % 65536 else x % 65536 - 65536

/-- The bytes of the string literal `"coldreboot"`. -/
def coldreboot : List Nat := [99, 111, 108, 100, 114, 101, 98, 111, 111, 116]

/-! ## PRCM: the embedded functions -/

/-- `omap_prcm_get_reset_sources()`. -/
def omap_prcm_get_reset_sources (st : PrcmState) : Nat := st.reset_reason

/-- `omap_prcm_store_and_clear_reset_sources()`; `rstst` is the value the one
register read of the selected branch returns. -/
def omap_prcm_store_and_clear_reset_sources (p : Platform) (st : PrcmState)
    (rstst : Nat) : PrcmState × List PrcmEvent :=
  if p.cpu_is_omap24xx || p.cpu_is_omap34xx then
    let st := { st with reset_reason := rstst &&& 0x7f }
    (st, [.omap2_prm_read_mod_reg p.WKUP_MOD p.OMAP2_RM_RSTST,
          .omap2_prm_write_mod_reg st.reset_reason p.WKUP_MOD p.OMAP2_RM_RSTST])
  else if p.cpu_is_omap44xx then
    let st := { st with reset_reason := rstst &&& 0x7ff }
    (st, [.omap4_prm_read_inst_reg p.OMAP4430_PRM_DEVICE_INST p.OMAP4_PRM_RSTST_OFFSET,
          .omap4_prm_write_inst_reg st.reset_reason p.OMAP4430_PRM_DEVICE_INST
            p.OMAP4_PRM_RSTST_OFFSET])
  else if p.cpu_is_omap543x then
    let st := { st with reset_reason := rstst &&& 0x7fff }
    (st, [.omap4_prm_read_inst_reg p.OMAP54XX_PRM_DEVICE_INST p.OMAP54XX_PRM_RSTST_OFFSET,
          .omap4_prm_write_inst_reg st.reset_reason p.OMAP54XX_PRM_DEVICE_INST
            p.OMAP54XX_PRM_RSTST_OFFSET])
  else (st, [])

/-- The statements of `omap_prcm_restart` after the SoC dispatch: the
OMAP2/3 write to `RSTCTRL` and the read back, after which the function
returns. -/
def restart_rstctrl (p : Platform) (prcm_offs : Int) (done : List PrcmEvent) :
    List PrcmEvent × RestartEnd :=
  (done ++ [.omap2_prm_set_mod_reg_bits p.OMAP_RST_DPLL3_MASK prcm_offs p.OMAP2_RM_RSTCTRL,
            .omap2_prm_read_mod_reg prcm_offs p.OMAP2_RM_RSTCTRL], .returned)

/-- `omap_prcm_restart(mode, cmd)`.  `cmd` is `none` for `NULL` and otherwise
the bytes of the string before its terminator; `reset_returns` tells whether
a software-reset call comes back to its caller.  The result is the list of
calls made and the way the run ends. -/
def omap_prcm_restart (p : Platform) (reset_returns : Bool) (mode : Nat)
    (cmd : Option (List Nat)) : List PrcmEvent × RestartEnd :=
  let _ := mode
  if p.cpu_is_omap24xx then
    restart_rstctrl p (s16 p.WKUP_MOD) [.omap2xxx_clk_prepare_for_reboot]
  else if p.cpu_is_omap34xx then
    let bootmode : Nat :=
      match cmd with
      | some (c :: _) => c % 256
      | _ => 0
    restart_rstctrl p (s16 p.OMAP3430_GR_MOD) [.omap3_ctrl_write_boot_mode bootmode]
  else if p.cpu_is_omap44xx then
    let done : List PrcmEvent :=
      if cmd = some coldreboot then
        [.printk "Performing cold reset\n", .omap4_prminst_global_cold_sw_reset]
      else
        [.printk "Performing warm reset\n", .omap4_prminst_global_warm_sw_reset]
    if reset_returns then restart_rstctrl p 0 done else (done, .reset)
  else if p.cpu_is_omap54xx then
    let done : List PrcmEvent :=
      if p.OMAP5430_REV_ES1_0 = p.omap_rev ∨ p.OMAP5432_REV_ES1_0 = p.omap_rev then
        [.omap4_pm_cold_reset "Cold reset as WA reboot for i744"]
      else
        [.omap4_prminst_global_warm_sw_reset]
    if reset_returns then (done ++ [.BUG], .bug) else (done, .reset)
  else
    restart_rstctrl p 0 [.WARN_ON]

/-- Modelled from the spec: the `omap_test_timeout(cond, timeout, index)`
helper, whose definition is not part of these sources: `index` counts from 0
while it is below `timeout`; each round evaluates `cond` once and leaves the
loop when it holds.  `remaining` is `timeout - index`, and `io` is whatever
evaluating `cond` acts on. -/
def omap_test_timeout {σ : Type} (cond : σ → Bool × σ) : Nat → Nat → σ → Nat × σ
  | 0, index, io => (index, io)
  | remaining + 1, index, io =>
    match cond io with
    | (true, io) => (index, io)
    | (false, io) => omap_test_timeout cond remaining (index + 1) io

/-- `omap2_cm_wait_idlest(reg, mask, idlest, name)`.  `idlest_reg k` is the
value the read number `k` (counting from 0) of the register returns. -/
def omap2_cm_wait_idlest (idlest_reg : Nat → Nat) (mask : Nat) (idlest : Nat) : IdlestRun :=
  let ena : Int := if idlest ≠ 0 then 0 else s32 mask
  let (i, reads) :=
    omap_test_timeout
      (fun n => (decide (((idlest_reg n % 4294967296) &&& mask) = u32 ena), n + 1))
      MAX_MODULE_ENABLE_WAIT 0 0
  let log : List PrcmEvent :=
    if i < MAX_MODULE_ENABLE_WAIT then [.pr_debug i] else [.pr_err MAX_MODULE_ENABLE_WAIT]
  { ret := if i < MAX_MODULE_ENABLE_WAIT then 1 else 0, reads := reads, log := log }

/-- `omap2_set_globals_prcm(omap2_globals)`. -/
def omap2_set_globals_prcm (p : Platform) (st : PrcmState) (g : OmapGlobals) :
    PrcmState × List PrcmEvent :=
  let st := if g.prm.isSome then { st with prm_base := g.prm } else st
  let st := if g.cm.isSome then { st with cm_base := g.cm } else st
  let st := if g.cm2.isSome then { st with cm2_base := g.cm2 } else st
  let st := if g.prcm_mpu.isSome then { st with prcm_mpu_base := g.prcm_mpu } else st
  if p.cpu_is_omap44xx || p.cpu_is_omap54xx then
    (st, [.omap4_prm_base_init, .omap4_cm_base_init])
  else (st, [])

/-- A call of one of the functions of `prcm.c` other than the boot-time
`omap_prcm_store_and_clear_reset_sources`. -/
inductive PrcmCall
  | get_reset_sources
  | restart (reset_returns : Bool) (mode : Nat) (cmd : Option (List Nat))
  | wait_idlest (idlest_reg : Nat → Nat) (mask : Nat) (idlest : Nat)
  | set_globals (g : OmapGlobals)

/-- The file-scope variables after such a call: only `omap2_set_globals_prcm`
assigns any of them. -/
def PrcmCall.exec (p : Platform) (st : PrcmState) : PrcmCall → PrcmState
  | .get_reset_sources => st
  | .restart _ _ _ => st
  | .wait_idlest _ _ _ => st
  | .set_globals g => (omap2_set_globals_prcm p st g).1

/-- A sample description of an OMAP5430 ES1.0, used as a concrete input.
Only the SoC tests and the revision codes matter to the theorems; the
register coordinates are sample values. -/
def omap5430_es1 : Platform :=
  { cpu_is_omap24xx := false, cpu_is_omap34xx := false, cpu_is_omap44xx := false,
    cpu_is_omap54xx := true, cpu_is_omap543x := true,
    omap_rev := 0x54301054, OMAP5430_REV_ES1_0 := 0x54301054,
    OMAP5432_REV_ES1_0 := 0x54321054,
    WKUP_MOD := 0x800, OMAP3430_GR_MOD := 0x800, OMAP2_RM_RSTST := 0x58,
    OMAP2_RM_RSTCTRL := 0x50, OMAP_RST_DPLL3_MASK := 4,
    OMAP4430_PRM_DEVICE_INST := 0x1b00, OMAP4_PRM_RSTST_OFFSET := 4,
    OMAP54XX_PRM_DEVICE_INST := 0x1c00, OMAP54XX_PRM_RSTST_OFFSET := 4 }

/-- The file-scope variables of `prcm.c` before anything ran. -/
def prcmBoot : PrcmState :=
  { prm_base := none, cm_base := none, cm2_base := none, prcm_mpu_base := none,
    reset_reason := 0 }

/-! ## Theorems -/

/-! ### What the two wake-line setters do, in closed form -/

theorem set_bcm_wake_locked_eq (s : BtState) (v : Int) :
    set_bcm_wake_locked s v =
      if s.bcm_wake = v then s
      else if v = 0 then
        { s with bcm_wake := 0, bcm_wake_lock := .inactive, gpio_bt_wake := false,
                 bcm_wake_uart_enabled := false,
                 log := s.log ++ [Event.gpio_set_value Gpio.BT_WAKE_GPIO 0]
                   ++ (if s.bcm_wake_uart_enabled = true
                        then [Event.omap_serial_ext_uart_disable 1] else [])
                   ++ [Event.wake_unlock .bcm_wake_lock] }
      else
        { s with bcm_wake := v, bcm_wake_lock := .active, gpio_bt_wake := true,
                 bcm_wake_uart_enabled := true,
                 log := s.log ++ [Event.wake_lock .bcm_wake_lock]
                   ++ (if s.bcm_wake_uart_enabled = true
                        then [] else [Event.omap_serial_ext_uart_enable 1])
                   ++ [Event.gpio_set_value Gpio.BT_WAKE_GPIO v] } := by
  by_cases h1 : s.bcm_wake = v <;> by_cases h2 : v = 0 <;>
    cases hb : s.bcm_wake_uart_enabled <;>
    simp [set_bcm_wake_locked, h1, h2, hb, wake_lock, wake_unlock, BtState.setLock,
      BtState.emit, gpio_set_value, omap_serial_ext_uart_enable,
      omap_serial_ext_uart_disable, int_to_bool]

theorem set_host_wake_locked_eq (HZ : Nat) (s : BtState) (v : Int) :
    set_host_wake_locked HZ s v =
      if v = s.host_wake then s
      else if v = 0 then
        { s with host_wake := 0, host_wake_lock := .timed (HOST_WAKE_TIMEOUT HZ),
                 host_wake_uart_enabled := false,
                 log := s.log
                   ++ (if s.host_wake_uart_enabled = true
                        then [Event.omap_serial_ext_uart_disable 1] else [])
                   ++ [Event.wake_lock_timeout .host_wake_lock (HOST_WAKE_TIMEOUT HZ)] }
      else
        { s with host_wake := v, host_wake_lock := .active,
                 host_wake_uart_enabled := true,
                 log := s.log ++ [Event.wake_lock .host_wake_lock]
                   ++ (if s.host_wake_uart_enabled = true
                        then [] else [Event.omap_serial_ext_uart_enable 1]) } := by
  by_cases h1 : v = s.host_wake <;> by_cases h2 : v = 0 <;>
    cases hb : s.host_wake_uart_enabled <;>
    simp [set_host_wake_locked, h1, h2, hb, wake_lock, wake_lock_timeout, BtState.setLock,
      BtState.emit, omap_serial_ext_uart_enable,
      omap_serial_ext_uart_disable, int_to_bool]

theorem set_bcm_wake_locked_frame (s : BtState) (v : Int) :
    (set_bcm_wake_locked s v).host_wake = s.host_wake ∧
    (set_bcm_wake_locked s v).host_wake_lock = s.host_wake_lock ∧
    (set_bcm_wake_locked s v).uport = s.uport ∧
    (set_bcm_wake_locked s v).enter_lpm_timer = s.enter_lpm_timer ∧
    (set_bcm_wake_locked s v).enter_lpm_delay = s.enter_lpm_delay ∧
    (set_bcm_wake_locked s v).ktime = s.ktime ∧
    (set_bcm_wake_locked s v).irq_type = s.irq_type := by
  rw [set_bcm_wake_locked_eq]
  split_ifs <;> simp

theorem set_host_wake_locked_frame (HZ : Nat) (s : BtState) (v : Int) :
    (set_host_wake_locked HZ s v).bcm_wake = s.bcm_wake ∧
    (set_host_wake_locked HZ s v).bcm_wake_lock = s.bcm_wake_lock ∧
    (set_host_wake_locked HZ s v).uport = s.uport ∧
    (set_host_wake_locked HZ s v).enter_lpm_timer = s.enter_lpm_timer ∧
    (set_host_wake_locked HZ s v).enter_lpm_delay = s.enter_lpm_delay ∧
    (set_host_wake_locked HZ s v).ktime = s.ktime ∧
    (set_host_wake_locked HZ s v).gpio_bt_wake = s.gpio_bt_wake ∧
    (set_host_wake_locked HZ s v).irq_type = s.irq_type := by
  rw [set_host_wake_locked_eq]
  split_ifs <;> simp

/-! ### The entry points, in closed form -/

theorem set_power_unblock_eq (HZ : Nat) (s : BtState) :
    bcm4330_bt_rfkill_set_power HZ s false =
      { s with gpio_bt_reg := true, gpio_bt_reset := true, bt_enabled := true,
               log := s.log
                 ++ (if s.clk32kg_reg = true ∧ s.bt_enabled = false
                      then [Event.regulator_enable] else [])
                 ++ [Event.gpio_set_value Gpio.BT_REG_GPIO 1,
                     Event.gpio_set_value Gpio.BT_RESET_GPIO 1] } := by
  cases hc : s.clk32kg_reg <;> cases he : s.bt_enabled <;>
    simp [bcm4330_bt_rfkill_set_power, hc, he, gpio_set_value, BtState.emit,
      regulator_enable, int_to_bool]

theorem set_power_block_eq (HZ : Nat) (s : BtState) :
    bcm4330_bt_rfkill_set_power HZ s true =
      { s with gpio_bt_reg := false, gpio_bt_reset := false, bt_enabled := false,
               host_wake := 0,
               host_wake_lock :=
                 if s.host_wake = 0 then s.host_wake_lock else .timed (HOST_WAKE_TIMEOUT HZ),
               host_wake_uart_enabled :=
                 if s.host_wake = 0 then s.host_wake_uart_enabled else false,
               log := s.log ++ [Event.gpio_set_value Gpio.BT_RESET_GPIO 0]
                 ++ hostWakeClear HZ s
                 ++ [Event.gpio_set_value Gpio.BT_REG_GPIO 0]
                 ++ (if s.clk32kg_reg = true ∧ s.bt_enabled = true
                      then [Event.regulator_disable] else []) } := by
  by_cases h0 : s.host_wake = 0 <;> cases hu : s.host_wake_uart_enabled <;>
    cases hc : s.clk32kg_reg <;> cases he : s.bt_enabled <;>
    simp [bcm4330_bt_rfkill_set_power, set_host_wake_locked_eq, gpio_set_value, BtState.emit,
      regulator_disable, hostWakeClear, int_to_bool, h0, hu, hc, he, eq_comm]

theorem exit_lpm_eq (s : BtState) (p : Nat) :
    bcm_bt_lpm_exit_lpm_locked s p =
      if s.bcm_wake = 1 then
        { s with uport := some p, enter_lpm_timer := some (s.ktime + s.enter_lpm_delay),
                 log := s.log ++ [Event.hrtimer_try_to_cancel,
                                  Event.hrtimer_start s.enter_lpm_delay] }
      else
        { s with uport := some p, enter_lpm_timer := some (s.ktime + s.enter_lpm_delay),
                 bcm_wake := 1, bcm_wake_lock := .active, gpio_bt_wake := true,
                 bcm_wake_uart_enabled := true,
                 log := s.log ++ [Event.hrtimer_try_to_cancel, Event.wake_lock .bcm_wake_lock]
                   ++ (if s.bcm_wake_uart_enabled = true
                        then [] else [Event.omap_serial_ext_uart_enable 1])
                   ++ [Event.gpio_set_value Gpio.BT_WAKE_GPIO 1,
                       Event.hrtimer_start s.enter_lpm_delay] } := by
  by_cases h1 : s.bcm_wake = 1 <;> cases hb : s.bcm_wake_uart_enabled <;>
    cases ht : s.enter_lpm_timer <;>
    simp [bcm_bt_lpm_exit_lpm_locked, hrtimer_try_to_cancel, hrtimer_start, BtState.emit,
      set_bcm_wake_locked_eq, h1, hb, ht]

theorem hrtimer_run_eq (s : BtState) (expiry : Nat) (ht : s.enter_lpm_timer = some expiry) :
    hrtimer_run s =
      if s.bcm_wake = 0 then
        { s with ktime := max s.ktime expiry, enter_lpm_timer := none,
                 log := s.log ++ [Event.hrtimer_callback (max s.ktime expiry),
                                  Event.spin_lock_irqsave (s.uport.getD 0),
                                  Event.spin_unlock_irqrestore (s.uport.getD 0)] }
      else
        { s with ktime := max s.ktime expiry, enter_lpm_timer := none,
                 bcm_wake := 0, bcm_wake_lock := .inactive, gpio_bt_wake := false,
                 bcm_wake_uart_enabled := false,
                 log := s.log ++ [Event.hrtimer_callback (max s.ktime expiry),
                                  Event.spin_lock_irqsave (s.uport.getD 0),
                                  Event.gpio_set_value Gpio.BT_WAKE_GPIO 0]
                   ++ (if s.bcm_wake_uart_enabled = true
                        then [Event.omap_serial_ext_uart_disable 1] else [])
                   ++ [Event.wake_unlock .bcm_wake_lock,
                       Event.spin_unlock_irqrestore (s.uport.getD 0)] } := by
  by_cases h1 : s.bcm_wake = 0 <;> cases hb : s.bcm_wake_uart_enabled <;>
    simp [hrtimer_run, enter_lpm, BtState.emit, set_bcm_wake_locked_eq, h1, hb, ht]

theorem hrtimer_run_idle (s : BtState) (ht : s.enter_lpm_timer = none) :
    hrtimer_run s = s := by
  simp [hrtimer_run, ht]

theorem host_wake_isr_eq (HZ : Nat) (s : BtState) (level : Int) :
    host_wake_isr HZ s level =
      match s.uport with
      | none =>
        { s with host_wake := level,
                 irq_type := if level ≠ 0 then .IRQF_TRIGGER_LOW else .IRQF_TRIGGER_HIGH,
                 log := s.log ++ [Event.irq_set_irq_type
                   (if level ≠ 0 then .IRQF_TRIGGER_LOW else .IRQF_TRIGGER_HIGH)] }
      | some port =>
        { set_host_wake_locked HZ
            { s with irq_type := if level ≠ 0 then .IRQF_TRIGGER_LOW else .IRQF_TRIGGER_HIGH,
                     log := s.log ++ [Event.irq_set_irq_type
                       (if level ≠ 0 then .IRQF_TRIGGER_LOW else .IRQF_TRIGGER_HIGH),
                       Event.spin_lock_irqsave port] } level with
          log := (set_host_wake_locked HZ
            { s with irq_type := if level ≠ 0 then .IRQF_TRIGGER_LOW else .IRQF_TRIGGER_HIGH,
                     log := s.log ++ [Event.irq_set_irq_type
                       (if level ≠ 0 then .IRQF_TRIGGER_LOW else .IRQF_TRIGGER_HIGH),
                       Event.spin_lock_irqsave port] } level).log
              ++ [Event.spin_unlock_irqrestore port] } := by
  cases hp : s.uport <;> simp [host_wake_isr, irq_set_irq_type, BtState.emit, hp]

/-! ### Invariants of the step model -/

theorem runStep_bcm_inv (HZ : Nat) (s : BtState) (step : LpmStep)
    (h : s.bcm_wake = 1 → s.bcm_wake_lock = .active) :
    (runStep HZ s step).bcm_wake = 1 → (runStep HZ s step).bcm_wake_lock = .active := by
  cases step with
  | exit_lpm p =>
    simp only [runStep, exit_lpm_eq]
    split_ifs <;> simp_all
  | enter_lpm =>
    simp only [runStep]
    cases ht : s.enter_lpm_timer with
    | none => rw [hrtimer_run_idle s ht]; exact h
    | some e =>
      rw [hrtimer_run_eq s e ht]
      split_ifs <;> simp_all
  | host_wake_isr level =>
    simp only [runStep, host_wake_isr_eq]
    cases hp : s.uport with
    | none => simpa using h
    | some port =>
      simp only []
      rw [(set_host_wake_locked_frame HZ _ level).1, (set_host_wake_locked_frame HZ _ level).2.1]
      exact h
  | set_power b =>
    cases b
    · simp only [runStep, set_power_unblock_eq]; simpa using h
    · simp only [runStep, set_power_block_eq]; simpa using h

theorem runStep_host_view (HZ : Nat) (s : BtState) (step : LpmStep) :
    (runStep HZ s step).uport =
      (match step with
        | .exit_lpm p => some p
        | _ => s.uport) ∧
    (((runStep HZ s step).host_wake = s.host_wake ∧
        (runStep HZ s step).host_wake_lock = s.host_wake_lock ∧
        ∀ level, step = .host_wake_isr level → s.uport = none → level = s.host_wake) ∨
      ((runStep HZ s step).host_wake = 0 ∧
        (runStep HZ s step).host_wake_lock = .timed (HOST_WAKE_TIMEOUT HZ)) ∨
      ((runStep HZ s step).host_wake ≠ s.host_wake ∧
        (runStep HZ s step).host_wake_lock = .active ∧
        ∃ level, step = .host_wake_isr level ∧ s.uport.isSome = true) ∨
      ((runStep HZ s step).host_wake_lock = s.host_wake_lock ∧
        ∃ level, step = .host_wake_isr level ∧ s.uport = none ∧
          (runStep HZ s step).host_wake = level)) := by
  cases step with
  | exit_lpm p =>
    simp only [runStep, exit_lpm_eq]
    split_ifs <;> simp
  | enter_lpm =>
    simp only [runStep]
    cases ht : s.enter_lpm_timer with
    | none => rw [hrtimer_run_idle s ht]; simp
    | some e =>
      rw [hrtimer_run_eq s e ht]
      split_ifs <;> simp
  | host_wake_isr level =>
    simp only [runStep, host_wake_isr_eq]
    cases hp : s.uport with
    | none => simp
    | some port =>
      simp only [set_host_wake_locked_eq]
      by_cases h1 : level = s.host_wake
      · simp [h1]
      · have h2 : ¬ s.host_wake = level := fun e => h1 e.symm
        by_cases h0 : level = 0
        · subst h0; simp [h1]
        · simp [h1, h2, h0]
  | set_power b =>
    cases b
    · simp only [runStep, set_power_unblock_eq]; simp
    · simp only [runStep, set_power_block_eq]
      by_cases h0 : s.host_wake = 0 <;> simp [h0]

theorem runStep_host_mark (HZ : Nat) (s : BtState) (c : Bool) (step : LpmStep)
    (h1 : c = true → s.host_wake = 1 ∧ s.host_wake_lock ≠ .active)
    (h2 : c = false → s.host_wake = 1 → s.host_wake_lock = .active)
    (h3 : s.uport = none → s.host_wake_lock ≠ .active) :
    (cachedAfter HZ s c step = true →
      (runStep HZ s step).host_wake = 1 ∧ (runStep HZ s step).host_wake_lock ≠ .active) ∧
    (cachedAfter HZ s c step = false →
      (runStep HZ s step).host_wake = 1 → (runStep HZ s step).host_wake_lock = .active) ∧
    ((runStep HZ s step).uport = none → (runStep HZ s step).host_wake_lock ≠ .active) := by
  obtain ⟨hu, hv⟩ := runStep_host_view HZ s step
  have hport : (runStep HZ s step).uport = none → s.uport = none := by
    intro h
    rw [hu] at h
    cases step <;> simp_all
  have hcache : cachesHigh s step = true →
      s.uport = none ∧ step = .host_wake_isr 1 := by
    intro h
    cases step with
    | host_wake_isr level =>
      cases hp : s.uport with
      | none =>
        have : level = 1 := by simpa [cachesHigh, hp] using h
        exact ⟨rfl, by rw [this]⟩
      | some port => simp [cachesHigh, hp] at h
    | exit_lpm p => simp [cachesHigh] at h
    | enter_lpm => simp [cachesHigh] at h
    | set_power b => simp [cachesHigh] at h
  simp only [cachedAfter, Bool.or_eq_true, Bool.and_eq_true, decide_eq_true_eq,
    Bool.or_eq_false_iff, Bool.and_eq_false_iff, decide_eq_false_iff_not]
  rcases hv with ⟨e1, e2, e3⟩ | ⟨e1, e2⟩ | ⟨e1, e2, level, hstep, e3⟩ | ⟨e2, level, hstep, e3, e4⟩
  · rw [e1, e2]
    refine ⟨?_, ?_, fun h => h3 (hport h)⟩
    · rintro (hc | ⟨hc, _⟩)
      · obtain ⟨hp, hs⟩ := hcache hc
        exact ⟨(e3 1 hs hp).symm, h3 hp⟩
      · exact h1 hc
    · rintro ⟨_, hc⟩ hw
      rcases hc with hc | hc
      · exact h2 hc hw
      · exact absurd hw hc
  · rw [e1, e2]
    refine ⟨?_, fun _ hw => absurd hw (by decide), fun _ => by simp⟩
    rintro (hc | ⟨_, hc⟩)
    · obtain ⟨hp, hs⟩ := hcache hc
      subst hs
      have : (runStep HZ s (.host_wake_isr 1)).host_wake = 1 := by
        simp [runStep, host_wake_isr_eq, hp]
      rw [this] at e1
      exact absurd e1 (by decide)
    · exact absurd hc (by decide)
  · rw [e2]
    refine ⟨?_, fun _ _ => rfl, ?_⟩
    · rintro (hc | ⟨hc, hw⟩)
      · obtain ⟨hp, _⟩ := hcache hc
        simp [hp] at e3
      · exact absurd ((h1 hc).1 ▸ hw) e1
    · intro h
      have := hport h
      simp [this] at e3
  · rw [e2, e4]
    refine ⟨?_, ?_, fun _ => h3 e3⟩
    · rintro (hc | ⟨_, hw⟩)
      · obtain ⟨_, hs⟩ := hcache hc
        rw [hstep] at hs
        injection hs with hl
        exact ⟨hl, h3 e3⟩
      · exact ⟨hw, h3 e3⟩
    · rintro ⟨hc, _⟩ hw
      subst hstep
      have : cachesHigh s (.host_wake_isr level) = true := by
        simp [cachesHigh, e3, hw]
      rw [this] at hc
      exact absurd hc (by decide)

theorem postInit_eq (s : BtState) (pdev : Nat) :
    postInit s pdev =
      { s with enter_lpm_timer := none, enter_lpm_delay := 1000000000,
               host_wake := -1, bcm_wake := -1, irq_type := .IRQF_TRIGGER_HIGH,
               bcm_wake_lock := .inactive, host_wake_lock := .inactive,
               gpio_bt_wake := false, pdev := some pdev,
               log := s.log ++
                 [Event.gpio_request Gpio.BT_WAKE_GPIO, Event.gpio_request Gpio.BT_HOST_WAKE_GPIO,
                  Event.gpio_direction_output Gpio.BT_WAKE_GPIO 0,
                  Event.gpio_direction_input Gpio.BT_HOST_WAKE_GPIO, Event.hrtimer_init,
                  Event.request_irq .IRQF_TRIGGER_HIGH, Event.irq_set_irq_wake 1,
                  Event.wake_lock_init .bcm_wake_lock, Event.wake_lock_init .host_wake_lock] } := by
  simp [postInit, bcm_bt_lpm_init, BtState.emit, gpio_direction_output, wake_lock_init,
    BtState.setLock, int_to_bool, ktime_set, UART_TIMEOUT_SEC, NSEC_PER_SEC]

theorem runSteps_bcm_inv (HZ : Nat) (steps : List LpmStep) :
    ∀ s : BtState, (s.bcm_wake = 1 → s.bcm_wake_lock = .active) →
      (runSteps HZ s steps).bcm_wake = 1 → (runSteps HZ s steps).bcm_wake_lock = .active := by
  induction steps with
  | nil => intro s h; simpa [runSteps] using h
  | cons step rest ih =>
    intro s h
    have := ih (runStep HZ s step) (runStep_bcm_inv HZ s step h)
    simpa [runSteps] using this

theorem runSteps_host_mark (HZ : Nat) (steps : List LpmStep) :
    ∀ (s : BtState) (c : Bool),
      (c = true → s.host_wake = 1 ∧ s.host_wake_lock ≠ .active) →
      (c = false → s.host_wake = 1 → s.host_wake_lock = .active) →
      (s.uport = none → s.host_wake_lock ≠ .active) →
      (hostWakeCached HZ s c steps = true →
        (runSteps HZ s steps).host_wake = 1 ∧
        (runSteps HZ s steps).host_wake_lock ≠ .active) ∧
      (hostWakeCached HZ s c steps = false →
        (runSteps HZ s steps).host_wake = 1 →
        (runSteps HZ s steps).host_wake_lock = .active) := by
  induction steps with
  | nil =>
    intro s c h1 h2 _
    exact ⟨fun hc => h1 hc, fun hc => h2 hc⟩
  | cons step rest ih =>
    intro s c h1 h2 h3
    obtain ⟨g1, g2, g3⟩ := runStep_host_mark HZ s c step h1 h2 h3
    have := ih (runStep HZ s step) (cachedAfter HZ s c step) g1 g2 g3
    simpa [runSteps, hostWakeCached] using this

theorem isrPortOrNotHigh_unmarked (HZ : Nat) (steps : List LpmStep) :
    ∀ s : BtState, isrPortOrNotHigh HZ s steps = true →
      hostWakeCached HZ s false steps = false := by
  induction steps with
  | nil => intro s _; rfl
  | cons step rest ih =>
    intro s h
    simp only [isrPortOrNotHigh, Bool.and_eq_true] at h
    have hc : cachedAfter HZ s false step = false := by
      cases step with
      | host_wake_isr level =>
        have := h.1
        cases hp : s.uport <;> simp_all [cachedAfter, cachesHigh]
      | exit_lpm p => simp [cachedAfter, cachesHigh]
      | enter_lpm => simp [cachedAfter, cachesHigh]
      | set_power b => simp [cachedAfter, cachesHigh]
    simp only [hostWakeCached, hc]
    exact ih _ h.2

/-! ### The regulator enable count along power calls -/

theorem regulatorBalance_append (l1 l2 : List Event) :
    regulatorBalance (l1 ++ l2) = regulatorBalance l1 + regulatorBalance l2 := by
  simp [regulatorBalance]

theorem set_power_log (HZ : Nat) (s : BtState) (b : Bool) :
    ∃ tr, (bcm4330_bt_rfkill_set_power HZ s b).log = s.log ++ tr ∧
      (∀ n, regulatorHeld s + regulatorBalance (tr.take n) = 0 ∨
            regulatorHeld s + regulatorBalance (tr.take n) = 1) ∧
      regulatorHeld s + regulatorBalance tr
        = regulatorHeld (bcm4330_bt_rfkill_set_power HZ s b) := by
  cases b
  · refine ⟨(if s.clk32kg_reg = true ∧ s.bt_enabled = false
                      then [Event.regulator_enable] else [])
                 ++ [Event.gpio_set_value Gpio.BT_REG_GPIO 1,
                     Event.gpio_set_value Gpio.BT_RESET_GPIO 1], ?_, ?_, ?_⟩
    · rw [set_power_unblock_eq]; simp
    · intro n
      cases hc : s.clk32kg_reg <;> cases he : s.bt_enabled <;>
        rcases n with _ | _ | _ | _ | n <;>
        simp [regulatorHeld, regulatorBalance, regulatorDelta, hc, he]
    · rw [set_power_unblock_eq]
      cases hc : s.clk32kg_reg <;> cases he : s.bt_enabled <;>
        simp [regulatorHeld, regulatorBalance, regulatorDelta, hc, he]
  · refine ⟨[Event.gpio_set_value Gpio.BT_RESET_GPIO 0]
                 ++ hostWakeClear HZ s
                 ++ [Event.gpio_set_value Gpio.BT_REG_GPIO 0]
                 ++ (if s.clk32kg_reg = true ∧ s.bt_enabled = true
                      then [Event.regulator_disable] else []), ?_, ?_, ?_⟩
    · rw [set_power_block_eq]; simp
    · intro n
      by_cases h0 : s.host_wake = 0 <;> cases hu : s.host_wake_uart_enabled <;>
        cases hc : s.clk32kg_reg <;> cases he : s.bt_enabled <;>
        rcases n with _ | _ | _ | _ | _ | _ | n <;>
        simp [regulatorHeld, regulatorBalance, regulatorDelta, hostWakeClear, h0, hu, hc, he]
    · rw [set_power_block_eq]
      by_cases h0 : s.host_wake = 0 <;> cases hu : s.host_wake_uart_enabled <;>
        cases hc : s.clk32kg_reg <;> cases he : s.bt_enabled <;>
        simp [regulatorHeld, regulatorBalance, regulatorDelta, hostWakeClear, h0, hu, hc, he]

theorem powerCalls_log (HZ : Nat) (calls : List Bool) :
    ∀ s : BtState, ∃ tr, (powerCalls HZ s calls).log = s.log ++ tr ∧
      (∀ n, regulatorHeld s + regulatorBalance (tr.take n) = 0 ∨
            regulatorHeld s + regulatorBalance (tr.take n) = 1) ∧
      regulatorHeld s + regulatorBalance tr = regulatorHeld (powerCalls HZ s calls) := by
  induction calls with
  | nil =>
    intro s
    refine ⟨[], by simp [powerCalls], ?_, by simp [powerCalls, regulatorBalance]⟩
    intro n
    cases hc : s.clk32kg_reg <;> cases he : s.bt_enabled <;>
      simp [regulatorHeld, regulatorBalance, hc, he]
  | cons b rest ih =>
    intro s
    obtain ⟨tr1, hlog1, hpre1, hend1⟩ := set_power_log HZ s b
    obtain ⟨tr2, hlog2, hpre2, hend2⟩ := ih (bcm4330_bt_rfkill_set_power HZ s b)
    have hstep : powerCalls HZ s (b :: rest)
        = powerCalls HZ (bcm4330_bt_rfkill_set_power HZ s b) rest := by
      simp [powerCalls]
    refine ⟨tr1 ++ tr2, ?_, ?_, ?_⟩
    · rw [hstep, hlog2, hlog1, List.append_assoc]
    · intro n
      rw [List.take_append_eq_append_take, regulatorBalance_append]
      by_cases hn : n ≤ tr1.length
      · have : n - tr1.length = 0 := by omega
        rw [this]
        simpa [regulatorBalance] using hpre1 n
      · have ht : tr1.take n = tr1 := List.take_of_length_le (by omega)
        rw [ht, ← add_assoc, hend1]
        exact hpre2 (n - tr1.length)
    · rw [hstep, regulatorBalance_append, ← add_assoc, hend1, hend2]

theorem set_power_frame (HZ : Nat) (s : BtState) (b : Bool) :
    (bcm4330_bt_rfkill_set_power HZ s b).clk32kg_reg = s.clk32kg_reg ∧
    (bcm4330_bt_rfkill_set_power HZ s b).bt_enabled = !b := by
  cases b
  · rw [set_power_unblock_eq]; simp
  · rw [set_power_block_eq]; simp

theorem powerCalls_clk (HZ : Nat) (calls : List Bool) :
    ∀ s : BtState, (powerCalls HZ s calls).clk32kg_reg = s.clk32kg_reg := by
  induction calls with
  | nil => intro s; rfl
  | cons b rest ih =>
    intro s
    have := ih (bcm4330_bt_rfkill_set_power HZ s b)
    rw [(set_power_frame HZ s b).1] at this
    simpa [powerCalls] using this

/-! ### The idle window -/

theorem firings_append (l1 l2 : List Event) :
    firings (l1 ++ l2) = firings l1 ++ firings l2 := by
  induction l1 with
  | nil => rfl
  | cons e es ih => cases e <;> simp [firings, ih]

theorem lastCall_ge (delay : Nat) (calls : List (Nat × Nat)) :
    ∀ t0, closelySpaced delay t0 calls = true → t0 ≤ lastCall t0 calls := by
  induction calls with
  | nil => intro t0 _; exact Nat.le_refl _
  | cons c rest ih =>
    intro t0 h
    obtain ⟨tc, p⟩ := c
    simp only [closelySpaced, Bool.and_eq_true, decide_eq_true_eq] at h
    have := ih tc h.2
    simp only [lastCall]
    omega

theorem run_until_pending (s : BtState) (e t : Nat)
    (ht : s.enter_lpm_timer = some e) (hlt : t < e) :
    run_until s t = { s with ktime := max s.ktime t } := by
  have : ¬ e ≤ t := by omega
  simp [run_until, ht, this]

theorem run_until_idle (s : BtState) (t : Nat) (ht : s.enter_lpm_timer = none) :
    run_until s t = { s with ktime := max s.ktime t } := by
  simp [run_until, ht]

theorem run_until_expired (s : BtState) (e t : Nat)
    (ht : s.enter_lpm_timer = some e) (hle : e ≤ t) (hk : s.ktime ≤ e)
    (hw : s.bcm_wake = 1) :
    (run_until s t).bcm_wake = 0 ∧ (run_until s t).gpio_bt_wake = false ∧
    (run_until s t).enter_lpm_timer = none ∧
    (run_until s t).bcm_wake_lock = .inactive ∧
    firings (run_until s t).log = firings s.log ++ [e] := by
  have h1 : ¬ s.bcm_wake = 0 := by omega
  have hm : max s.ktime e = e := max_eq_right hk
  cases hb : s.bcm_wake_uart_enabled <;>
    simp [run_until, ht, hle, hrtimer_run_eq s e ht, h1, hb, hm, firings_append, firings]

theorem exit_lpm_awake (s : BtState) (p : Nat) (hw : s.bcm_wake = 1) :
    (bcm_bt_lpm_exit_lpm_locked s p).enter_lpm_timer = some (s.ktime + s.enter_lpm_delay) ∧
    (bcm_bt_lpm_exit_lpm_locked s p).enter_lpm_delay = s.enter_lpm_delay ∧
    (bcm_bt_lpm_exit_lpm_locked s p).bcm_wake = 1 ∧
    (bcm_bt_lpm_exit_lpm_locked s p).gpio_bt_wake = s.gpio_bt_wake ∧
    (bcm_bt_lpm_exit_lpm_locked s p).ktime = s.ktime ∧
    firings (bcm_bt_lpm_exit_lpm_locked s p).log = firings s.log := by
  rw [exit_lpm_eq]
  simp [hw, firings_append, firings]

theorem exit_lpm_wakes (s : BtState) (p : Nat) (hw : s.bcm_wake ≠ 1) :
    (bcm_bt_lpm_exit_lpm_locked s p).enter_lpm_timer = some (s.ktime + s.enter_lpm_delay) ∧
    (bcm_bt_lpm_exit_lpm_locked s p).enter_lpm_delay = s.enter_lpm_delay ∧
    (bcm_bt_lpm_exit_lpm_locked s p).bcm_wake = 1 ∧
    (bcm_bt_lpm_exit_lpm_locked s p).gpio_bt_wake = true ∧
    (bcm_bt_lpm_exit_lpm_locked s p).ktime = s.ktime ∧
    firings (bcm_bt_lpm_exit_lpm_locked s p).log = firings s.log := by
  rw [exit_lpm_eq]
  cases hb : s.bcm_wake_uart_enabled <;> simp [hw, hb, firings_append, firings]

/-- Shared step of the idle-window argument: in a state where the host has
asserted the wake line at time `t0` and the timer is pending for `t0 + d`,
closely spaced further calls keep the line asserted until `d` after the last
of them, when the timer fires once. -/
theorem stateAt_awake (d : Nat) (calls : List (Nat × Nat)) :
    ∀ (s : BtState) (t0 t : Nat),
      s.enter_lpm_timer = some (t0 + d) → s.enter_lpm_delay = d → s.bcm_wake = 1 →
      s.gpio_bt_wake = true → s.ktime = t0 → closelySpaced d t0 calls = true → t0 ≤ t →
      (t < lastCall t0 calls + d →
        (stateAt s calls t).bcm_wake = 1 ∧ (stateAt s calls t).gpio_bt_wake = true ∧
        firings (stateAt s calls t).log = firings s.log) ∧
      (lastCall t0 calls + d ≤ t →
        (stateAt s calls t).bcm_wake = 0 ∧ (stateAt s calls t).gpio_bt_wake = false ∧
        (stateAt s calls t).enter_lpm_timer = none ∧
        firings (stateAt s calls t).log = firings s.log ++ [lastCall t0 calls + d]) := by
  induction calls with
  | nil =>
    intro s t0 t htm hd hw hg hk _ ht0
    simp only [stateAt, lastCall]
    constructor
    · intro hlt
      rw [run_until_pending s (t0 + d) t htm hlt]
      exact ⟨hw, hg, rfl⟩
    · intro hle
      have := run_until_expired s (t0 + d) t htm hle (by omega) hw
      exact ⟨this.1, this.2.1, this.2.2.1, this.2.2.2.2⟩
  | cons c rest ih =>
    intro s t0 t htm hd hw hg hk hsp ht0
    obtain ⟨tc, p⟩ := c
    simp only [closelySpaced, Bool.and_eq_true, decide_eq_true_eq] at hsp
    obtain ⟨⟨h1, h2⟩, h3⟩ := hsp
    have hlast := lastCall_ge d rest tc h3
    simp only [stateAt, lastCall]
    by_cases hc : tc ≤ t
    · rw [if_pos hc, run_until_pending s (t0 + d) tc htm h2]
      have hm : max s.ktime tc = tc := by rw [hk]; exact max_eq_right (by omega)
      rw [hm]
      obtain ⟨e1, e2, e3, e4, e5, e6⟩ := exit_lpm_awake { s with ktime := tc } p hw
      have := ih (bcm_bt_lpm_exit_lpm_locked { s with ktime := tc } p) tc t
        (by rw [e1, ← hd]) (by rw [e2]; exact hd) e3 (by rw [e4]; exact hg) e5 h3 hc
      rw [e6] at this
      exact this
    · rw [if_neg hc, run_until_pending s (t0 + d) t htm (by omega)]
      constructor
      · intro _
        exact ⟨hw, hg, rfl⟩
      · intro hle
        omega

/-! ### PRCM helpers -/

theorem and_u32 (x mask : Nat) (hm : mask < 4294967296) :
    (x % 4294967296) &&& mask = x &&& mask := by
  have h1 : x % 4294967296 = x &&& (2 ^ 32 - 1) := (Nat.and_pow_two_sub_one_eq_mod x 32).symm
  have h2 : (2 ^ 32 - 1) &&& mask = mask := by
    rw [Nat.and_comm, Nat.and_pow_two_sub_one_eq_mod]
    exact Nat.mod_eq_of_lt hm
  rw [h1, Nat.and_assoc, h2]

theorem u32_s32 (mask : Nat) (hm : mask < 4294967296) : u32 (s32 mask) = mask := by
  unfold u32 s32
  split_ifs <;> omega

theorem omap_test_timeout_spec (sat : Nat → Bool) (remaining : Nat) :
    ∀ index n : Nat,
      (∃ k, k < remaining ∧ sat (n + k) = true ∧ (∀ j, j < k → sat (n + j) = false) ∧
        omap_test_timeout (fun m => (sat m, m + 1)) remaining index n
          = (index + k, n + k + 1)) ∨
      ((∀ j, j < remaining → sat (n + j) = false) ∧
        omap_test_timeout (fun m => (sat m, m + 1)) remaining index n
          = (index + remaining, n + remaining)) := by
  induction remaining with
  | zero =>
    intro index n
    right
    exact ⟨fun j hj => absurd hj (Nat.not_lt_zero j), rfl⟩
  | succ r ih =>
    intro index n
    cases hs : sat n with
    | true =>
      left
      refine ⟨0, Nat.succ_pos r, by simpa using hs, fun j hj => absurd hj (Nat.not_lt_zero j), ?_⟩
      simp [omap_test_timeout, hs]
    | false =>
      have hstep : omap_test_timeout (fun m => (sat m, m + 1)) (r + 1) index n
          = omap_test_timeout (fun m => (sat m, m + 1)) r (index + 1) (n + 1) := by
        simp [omap_test_timeout, hs]
      rcases ih (index + 1) (n + 1) with ⟨k, hk, hsat, hmin, heq⟩ | ⟨hnone, heq⟩
      · left
        refine ⟨k + 1, by omega, ?_, ?_, ?_⟩
        · rw [← hsat]; congr 1; omega
        · intro j hj
          rcases j with _ | j
          · simpa using hs
          · have := hmin j (by omega)
            rw [← this]; congr 1; omega
        · rw [hstep, heq]; congr 1 <;> omega
      · right
        refine ⟨?_, ?_⟩
        · intro j hj
          rcases j with _ | j
          · simpa using hs
          · have := hnone j (by omega)
            rw [← this]; congr 1; omega
        · rw [hstep, heq]; congr 1 <;> omega

theorem idlest_cond_iff (mask idlest r : Nat) (hm : mask < 4294967296) :
    decide (((r % 4294967296) &&& mask) = u32 (if idlest ≠ 0 then 0 else s32 mask)) = true ↔
      r &&& mask = (if idlest ≠ 0 then 0 else mask) := by
  rw [decide_eq_true_eq, and_u32 r mask hm]
  by_cases hi : idlest ≠ 0
  · simp only [if_pos hi]; rfl
  · simp only [if_neg hi, u32_s32 mask hm]

theorem wait_idlest_unfold (idlest_reg : Nat → Nat) (mask idlest : Nat) :
    omap2_cm_wait_idlest idlest_reg mask idlest =
      { ret := if (omap_test_timeout (fun n => (decide (((idlest_reg n % 4294967296) &&& mask)
                    = u32 (if idlest ≠ 0 then 0 else s32 mask)), n + 1)) 100000 0 0).1 < 100000
                then 1 else 0,
        reads := (omap_test_timeout (fun n => (decide (((idlest_reg n % 4294967296) &&& mask)
                    = u32 (if idlest ≠ 0 then 0 else s32 mask)), n + 1)) 100000 0 0).2,
        log := if (omap_test_timeout (fun n => (decide (((idlest_reg n % 4294967296) &&& mask)
                    = u32 (if idlest ≠ 0 then 0 else s32 mask)), n + 1)) 100000 0 0).1 < 100000
                then [.pr_debug (omap_test_timeout (fun n =>
                    (decide (((idlest_reg n % 4294967296) &&& mask)
                    = u32 (if idlest ≠ 0 then 0 else s32 mask)), n + 1)) 100000 0 0).1]
                else [.pr_err 100000] } := by
  rfl


theorem exec_reset_reason (p : Platform) (st : PrcmState) (call : PrcmCall) :
    (call.exec p st).reset_reason = st.reset_reason := by
  cases call with
  | get_reset_sources => rfl
  | restart _ _ _ => rfl
  | wait_idlest _ _ _ => rfl
  | set_globals g =>
    simp only [PrcmCall.exec, omap2_set_globals_prcm]
    split_ifs <;> rfl

theorem calls_reset_reason (p : Platform) (calls : List PrcmCall) :
    ∀ st : PrcmState, (calls.foldl (PrcmCall.exec p) st).reset_reason = st.reset_reason := by
  induction calls with
  | nil => intro st; rfl
  | cons c rest ih =>
    intro st
    rw [List.foldl_cons, ih, exec_reset_reason]

/-! ### Claims -/

/-- C1: forcing a wake line to the value it already has changes nothing:
`set_bcm_wake_locked` called with the current `bcm_wake` and
`set_host_wake_locked` called with the current `host_wake` return the state
they were given, effect log included, so no GPIO write, lock operation or UART
clock-gate call is made. -/
theorem wake_lines_write_coalesced (HZ : Nat) (s : BtState) (v : Int) :
    (v = s.bcm_wake →
      set_bcm_wake_locked s v = s ∧ (set_bcm_wake_locked s v).log = s.log) ∧
    (v = s.host_wake →
      set_host_wake_locked HZ s v = s ∧ (set_host_wake_locked HZ s v).log = s.log) := by
  constructor
  · intro h
    have e : set_bcm_wake_locked s v = s := by
      unfold set_bcm_wake_locked
      rw [if_pos h.symm]
    exact ⟨e, by rw [e]⟩
  · intro h
    have e : set_host_wake_locked HZ s v = s := by
      unfold set_host_wake_locked
      rw [if_pos h]
    exact ⟨e, by rw [e]⟩

/-- Witness for C1: in `busyState` both wake lines are at 1, and forcing
either to 1 again returns the same state. -/
theorem wake_lines_write_coalesced_witness :
    set_bcm_wake_locked busyState 1 = busyState ∧
    set_host_wake_locked 128 busyState 1 = busyState :=
  ⟨((wake_lines_write_coalesced 128 busyState 1).1 (by decide)).1,
   ((wake_lines_write_coalesced 128 busyState 1).2 (by decide)).1⟩

/-- C2, as stated, fails: in the normal-operation state `busyState` (host wake
asserted, UART clock forced on, Bluetooth enabled), blocking logs the write of
0 to the reset GPIO first; the calls that clear the host wake (the UART
clock-gate disable and the timed wake lock) come after it, not before. -/
theorem set_power_block_resets_first :
    busyState.host_wake = 1 ∧
    emitted busyState (bcm4330_bt_rfkill_set_power 128 busyState true) =
      [Event.gpio_set_value Gpio.BT_RESET_GPIO 0,
       Event.omap_serial_ext_uart_disable 1,
       Event.wake_lock_timeout .host_wake_lock 64,
       Event.gpio_set_value Gpio.BT_REG_GPIO 0,
       Event.regulator_disable] ∧
    (emitted busyState (bcm4330_bt_rfkill_set_power 128 busyState true)).indexOf
        (Event.gpio_set_value Gpio.BT_RESET_GPIO 0)
      < (emitted busyState (bcm4330_bt_rfkill_set_power 128 busyState true)).indexOf
        (Event.wake_lock_timeout .host_wake_lock 64) := by
  decide

/-- C2, amended: from every state, `bcm4330_bt_rfkill_set_power(data, true)`
ends with `bt_lpm.host_wake == 0` and `bt_enabled == false`, and what it logs
is, in this order: the write of 0 to the reset GPIO, the calls of
`set_host_wake_locked(0)` (none when `host_wake` was already 0), the write of
0 to the regulator-enable GPIO, and `regulator_disable` when the regulator is
present and Bluetooth was enabled.  So the host-wake clear comes after the
reset write and before the regulator-enable write and the clock disable. -/
theorem set_power_block_order (HZ : Nat) (s : BtState) :
    (bcm4330_bt_rfkill_set_power HZ s true).host_wake = 0 ∧
    (bcm4330_bt_rfkill_set_power HZ s true).bt_enabled = false ∧
    (bcm4330_bt_rfkill_set_power HZ s true).log =
      s.log ++ [Event.gpio_set_value Gpio.BT_RESET_GPIO 0]
        ++ hostWakeClear HZ s
        ++ [Event.gpio_set_value Gpio.BT_REG_GPIO 0]
        ++ (if s.clk32kg_reg = true ∧ s.bt_enabled = true
             then [Event.regulator_disable] else []) ∧
    (set_host_wake_locked HZ (gpio_set_value s Gpio.BT_RESET_GPIO 0) 0).log =
      s.log ++ [Event.gpio_set_value Gpio.BT_RESET_GPIO 0] ++ hostWakeClear HZ s := by
  refine ⟨?_, ?_, ?_, ?_⟩
  · rw [set_power_block_eq]
  · rw [set_power_block_eq]
  · rw [set_power_block_eq]
  · by_cases h0 : s.host_wake = 0 <;> cases hu : s.host_wake_uart_enabled <;>
      simp [set_host_wake_locked_eq, gpio_set_value, BtState.emit, hostWakeClear, h0, hu,
        eq_comm]

/-- C3: on a CPU that tests as OMAP54xx (and as none of the older
generations, which the dispatch asks about first) whose `omap_rev()` is
`OMAP5430_REV_ES1_0` or `OMAP5432_REV_ES1_0`, `omap_prcm_restart(mode, cmd)`
calls `omap4_pm_cold_reset` for every `mode` and `cmd` and never
`omap4_prminst_global_warm_sw_reset`; if the reset call returns, the next
thing reached is `BUG()`, which ends the run, and the `RSTCTRL` write is not
made. -/
theorem restart_omap54xx_es1_cold_reset (p : Platform) (reset_returns : Bool) (mode : Nat)
    (cmd : Option (List Nat))
    (h24 : p.cpu_is_omap24xx = false) (h34 : p.cpu_is_omap34xx = false)
    (h44 : p.cpu_is_omap44xx = false) (h54 : p.cpu_is_omap54xx = true)
    (hrev : p.omap_rev = p.OMAP5430_REV_ES1_0 ∨ p.omap_rev = p.OMAP5432_REV_ES1_0) :
    (omap_prcm_restart p reset_returns mode cmd).1 =
      PrcmEvent.omap4_pm_cold_reset "Cold reset as WA reboot for i744"
        :: (if reset_returns = true then [PrcmEvent.BUG] else []) ∧
    PrcmEvent.omap4_prminst_global_warm_sw_reset
      ∉ (omap_prcm_restart p reset_returns mode cmd).1 ∧
    (reset_returns = true →
      (omap_prcm_restart p reset_returns mode cmd).2 = RestartEnd.bug ∧
      PrcmEvent.BUG ∈ (omap_prcm_restart p reset_returns mode cmd).1 ∧
      ∀ bits module idx, PrcmEvent.omap2_prm_set_mod_reg_bits bits module idx
        ∉ (omap_prcm_restart p reset_returns mode cmd).1) ∧
    (reset_returns = false →
      (omap_prcm_restart p reset_returns mode cmd).2 = RestartEnd.reset) := by
  have hrev2 : p.OMAP5430_REV_ES1_0 = p.omap_rev ∨ p.OMAP5432_REV_ES1_0 = p.omap_rev :=
    hrev.imp Eq.symm Eq.symm
  cases reset_returns <;> simp [omap_prcm_restart, h24, h34, h44, h54, hrev2]

/-- Witness for C3: the sample OMAP5430 ES1.0, asked for a warm restart
(`cmd == NULL`), with a reset call that returns. -/
theorem restart_omap54xx_es1_cold_reset_witness :
    (omap_prcm_restart omap5430_es1 true 0 none).1 =
      [PrcmEvent.omap4_pm_cold_reset "Cold reset as WA reboot for i744", PrcmEvent.BUG] :=
  (restart_omap54xx_es1_cold_reset omap5430_es1 true 0 none rfl rfl rfl rfl (Or.inl rfl)).1

/-- C4: `omap2_cm_wait_idlest` returns 1 exactly when one of the first
`MAX_MODULE_ENABLE_WAIT` = 100000 values read from the IDLEST register
satisfies `(r & mask) == (idlest ? 0 : mask)` and returns 0 otherwise; it
makes at most 100000 reads; when it returns 1 the last read it made is the
first satisfying one, and when it returns 0 it made all 100000 reads.  The
function is total, so the loop ends for every input. -/
theorem wait_idlest_result (idlest_reg : Nat → Nat) (mask idlest : Nat)
    (hmask : mask < 4294967296) :
    ((omap2_cm_wait_idlest idlest_reg mask idlest).ret = 1 ↔
      ∃ k, k < 100000 ∧ idlest_reg k &&& mask = (if idlest ≠ 0 then 0 else mask)) ∧
    ((omap2_cm_wait_idlest idlest_reg mask idlest).ret = 0 ↔
      ¬ ∃ k, k < 100000 ∧ idlest_reg k &&& mask = (if idlest ≠ 0 then 0 else mask)) ∧
    (omap2_cm_wait_idlest idlest_reg mask idlest).reads ≤ 100000 ∧
    ((omap2_cm_wait_idlest idlest_reg mask idlest).ret = 1 →
      1 ≤ (omap2_cm_wait_idlest idlest_reg mask idlest).reads ∧
      idlest_reg ((omap2_cm_wait_idlest idlest_reg mask idlest).reads - 1) &&& mask
        = (if idlest ≠ 0 then 0 else mask) ∧
      ∀ j, j < (omap2_cm_wait_idlest idlest_reg mask idlest).reads - 1 →
        idlest_reg j &&& mask ≠ (if idlest ≠ 0 then 0 else mask)) ∧
    ((omap2_cm_wait_idlest idlest_reg mask idlest).ret = 0 →
      (omap2_cm_wait_idlest idlest_reg mask idlest).reads = 100000) := by
  have hsat : ∀ r, decide (((r % 4294967296) &&& mask)
        = u32 (if idlest ≠ 0 then 0 else s32 mask)) = true ↔
      r &&& mask = (if idlest ≠ 0 then 0 else mask) :=
    fun r => idlest_cond_iff mask idlest r hmask
  have hnsat : ∀ r, decide (((r % 4294967296) &&& mask)
        = u32 (if idlest ≠ 0 then 0 else s32 mask)) = false ↔
      r &&& mask ≠ (if idlest ≠ 0 then 0 else mask) := by
    intro r
    rw [← Bool.not_eq_true]
    exact not_congr (hsat r)
  rw [wait_idlest_unfold]
  rcases omap_test_timeout_spec
      (fun m => decide (((idlest_reg m % 4294967296) &&& mask)
        = u32 (if idlest ≠ 0 then 0 else s32 mask))) 100000 0 0 with
    ⟨k, hk, hs, hmin, heq⟩ | ⟨hnone, heq⟩
  · simp only [Nat.zero_add] at hs hmin heq
    rw [heq]
    have hlt : k < 100000 := hk
    have hex : ∃ k, k < 100000 ∧ idlest_reg k &&& mask = (if idlest ≠ 0 then 0 else mask) :=
      ⟨k, hk, (hsat _).1 hs⟩
    simp only [if_pos hlt, Nat.add_sub_cancel]
    refine ⟨⟨fun _ => hex, fun _ => trivial⟩, ⟨fun h => absurd h (by decide), fun h => absurd hex h⟩,
      by omega, fun _ => ⟨by omega, (hsat _).1 hs, fun j hj => (hnsat _).1 (hmin j hj)⟩,
      fun h => absurd h (by decide)⟩
  · simp only [Nat.zero_add] at hnone heq
    rw [heq]
    have hno : ¬ ∃ k, k < 100000 ∧ idlest_reg k &&& mask = (if idlest ≠ 0 then 0 else mask) := by
      rintro ⟨k, hk, hr⟩
      exact (hnsat _).1 (hnone k hk) hr
    simp only [Nat.lt_irrefl, if_false]
    refine ⟨⟨fun h => absurd h (by decide), fun h => absurd h hno⟩, ⟨fun _ => hno, fun _ => trivial⟩,
      Nat.le_refl _, fun h => absurd h (by decide), fun _ => trivial⟩

/-- Witness for C4: with mask `0x80000000`, `idlest` 0 and a register that
reads `0xffffffff` from the third read on, the call returns 1. -/
theorem wait_idlest_result_witness :
    (omap2_cm_wait_idlest (fun k => if k < 2 then 0 else 4294967295) 2147483648 0).ret = 1 :=
  (wait_idlest_result (fun k => if k < 2 then 0 else 4294967295) 2147483648 0
    (by decide)).1.mpr ⟨2, by decide, by decide⟩

/-- C5, as stated, fails: right after initialisation, with no UART port saved
yet, a firing of `host_wake_isr` that samples a high line leaves
`bt_lpm.host_wake == 1` while `host_wake_lock` is not held; a later
`bcm_bt_lpm_exit_lpm_locked` does not change that. -/
theorem host_wake_cached_without_lock :
    (runSteps 128 (postInit (bootState true) 0) [.host_wake_isr 1]).host_wake = 1 ∧
    (runSteps 128 (postInit (bootState true) 0) [.host_wake_isr 1]).host_wake_lock.held
      = false ∧
    (runSteps 128 (postInit (bootState true) 0) [.host_wake_isr 1, .exit_lpm 1]).host_wake
      = 1 ∧
    (runSteps 128 (postInit (bootState true) 0)
      [.host_wake_isr 1, .exit_lpm 1]).host_wake_lock.held = false := by
  decide

/-- C5, amended: in every state reached from the state a successful
`bcm_bt_lpm_init` leaves by any sequence of `bcm_bt_lpm_exit_lpm_locked`,
idle-timer firings, `host_wake_isr` (any sampled level, with or without a
UART port saved) and `bcm4330_bt_rfkill_set_power` steps,
`bt_lpm.bcm_wake == 1` implies that `bcm_wake_lock` is held; and
`bt_lpm.host_wake == 1` implies that `host_wake_lock` is held, except while
`bt_lpm.host_wake` still holds a 1 that a firing of `host_wake_isr` with no
UART port saved cached there, and then `host_wake_lock` has no `wake_lock`
hold.  In particular the `host_wake` half holds whenever every firing found
a port saved or sampled a level other than 1.  Where a lock is held, the hold
is the persistent one of `wake_lock`. -/
theorem wake_lines_asserted_locks_held (HZ : Nat) (s0 : BtState) (pdev : Nat)
    (steps : List LpmStep) :
    ((runSteps HZ (postInit s0 pdev) steps).bcm_wake = 1 →
      (runSteps HZ (postInit s0 pdev) steps).bcm_wake_lock = .active ∧
      (runSteps HZ (postInit s0 pdev) steps).bcm_wake_lock.held = true) ∧
    (hostWakeCached HZ (postInit s0 pdev) false steps = false →
      (runSteps HZ (postInit s0 pdev) steps).host_wake = 1 →
      (runSteps HZ (postInit s0 pdev) steps).host_wake_lock = .active ∧
      (runSteps HZ (postInit s0 pdev) steps).host_wake_lock.held = true) ∧
    (hostWakeCached HZ (postInit s0 pdev) false steps = true →
      (runSteps HZ (postInit s0 pdev) steps).host_wake = 1 ∧
      (runSteps HZ (postInit s0 pdev) steps).host_wake_lock ≠ .active) ∧
    (isrPortOrNotHigh HZ (postInit s0 pdev) steps = true →
      (runSteps HZ (postInit s0 pdev) steps).host_wake = 1 →
      (runSteps HZ (postInit s0 pdev) steps).host_wake_lock = .active ∧
      (runSteps HZ (postInit s0 pdev) steps).host_wake_lock.held = true) := by
  have hb : (postInit s0 pdev).bcm_wake = 1 → (postInit s0 pdev).bcm_wake_lock = .active := by
    rw [postInit_eq]; simp
  have hmark := runSteps_host_mark HZ steps (postInit s0 pdev) false
    (fun h => absurd h (by decide))
    (by rw [postInit_eq]; simp)
    (by rw [postInit_eq]; simp)
  refine ⟨?_, ?_, hmark.1, ?_⟩
  · intro h
    have := runSteps_bcm_inv HZ steps _ hb h
    exact ⟨this, by rw [this]; rfl⟩
  · intro hc h
    have := hmark.2 hc h
    exact ⟨this, by rw [this]; rfl⟩
  · intro hp h
    have := hmark.2 (isrPortOrNotHigh_unmarked HZ steps _ hp) h
    exact ⟨this, by rw [this]; rfl⟩

/-- Witness for C5: after a UART transfer has started and the chip has raised
its wake line, both wake lines are asserted and both locks are held; this is
so too when a firing with no port saved sampled 0 before, and when one
sampled 1 before but the line has since been seen low with a port saved. -/
theorem wake_lines_asserted_locks_held_witness :
    (runSteps 128 (postInit (bootState true) 0) [.exit_lpm 1, .host_wake_isr 1]).bcm_wake = 1 ∧
    (runSteps 128 (postInit (bootState true) 0)
      [.exit_lpm 1, .host_wake_isr 1]).bcm_wake_lock.held = true ∧
    (runSteps 128 (postInit (bootState true) 0) [.exit_lpm 1, .host_wake_isr 1]).host_wake = 1 ∧
    (runSteps 128 (postInit (bootState true) 0)
      [.exit_lpm 1, .host_wake_isr 1]).host_wake_lock.held = true ∧
    (runSteps 128 (postInit (bootState true) 0)
      [.host_wake_isr 0, .exit_lpm 1, .host_wake_isr 1]).host_wake_lock.held = true ∧
    (runSteps 128 (postInit (bootState true) 0)
      [.host_wake_isr 1, .exit_lpm 1, .host_wake_isr 0, .host_wake_isr 1]).host_wake_lock.held
      = true :=
  ⟨by decide,
   ((wake_lines_asserted_locks_held 128 (bootState true) 0
      [.exit_lpm 1, .host_wake_isr 1]).1 (by decide)).2,
   by decide,
   ((wake_lines_asserted_locks_held 128 (bootState true) 0
      [.exit_lpm 1, .host_wake_isr 1]).2.1 (by decide) (by decide)).2,
   ((wake_lines_asserted_locks_held 128 (bootState true) 0
      [.host_wake_isr 0, .exit_lpm 1, .host_wake_isr 1]).2.2.2 (by decide) (by decide)).2,
   ((wake_lines_asserted_locks_held 128 (bootState true) 0
      [.host_wake_isr 1, .exit_lpm 1, .host_wake_isr 0, .host_wake_isr 1]).2.1
      (by decide) (by decide)).2⟩

/-- C6, as stated, fails: with the trigger `IRQF_TRIGGER_HIGH` that
`request_irq` sets in force, a firing of `host_wake_isr` that samples a low
line programs `IRQF_TRIGGER_HIGH` again, so the trigger is not inverted. -/
theorem host_wake_isr_trigger_not_inverted :
    (postInit (bootState true) 0).irq_type = .IRQF_TRIGGER_HIGH ∧
    (host_wake_isr 128 (postInit (bootState true) 0) 0).irq_type = .IRQF_TRIGGER_HIGH ∧
    busyState.irq_type = .IRQF_TRIGGER_LOW ∧
    (host_wake_isr 128 busyState 1).irq_type = .IRQF_TRIGGER_LOW := by
  decide

/-- C6, amended: the trigger type `host_wake_isr` programs is the opposite of
the level it samples, `IRQF_TRIGGER_LOW` for a non-zero sample and
`IRQF_TRIGGER_HIGH` for a zero one; it differs from the trigger in force
before the firing exactly when the sample agrees with that trigger (non-zero
under HIGH, zero under LOW).  A successful `bcm_bt_lpm_init` leaves
`IRQF_TRIGGER_HIGH` in force. -/
theorem host_wake_isr_trigger_follows_level (HZ : Nat) (s : BtState) (level : Int)
    (pdev : Nat) :
    (host_wake_isr HZ s level).irq_type =
      (if level ≠ 0 then IrqTrigger.IRQF_TRIGGER_LOW else IrqTrigger.IRQF_TRIGGER_HIGH) ∧
    ((host_wake_isr HZ s level).irq_type ≠ s.irq_type ↔
      (level ≠ 0 ↔ s.irq_type = .IRQF_TRIGGER_HIGH)) ∧
    (postInit s pdev).irq_type = .IRQF_TRIGGER_HIGH := by
  have h1 : (host_wake_isr HZ s level).irq_type =
      (if level ≠ 0 then IrqTrigger.IRQF_TRIGGER_LOW else IrqTrigger.IRQF_TRIGGER_HIGH) := by
    rw [host_wake_isr_eq]
    cases hp : s.uport with
    | none => rfl
    | some port =>
      simp only []
      rw [(set_host_wake_locked_frame HZ _ level).2.2.2.2.2.2.2]
  refine ⟨h1, ?_, by rw [postInit_eq]⟩
  rw [h1]
  by_cases hl : level = 0 <;> cases ht : s.irq_type <;> simp [hl]

/-- C7: take the state a successful `bcm_bt_lpm_init` leaves, with the clock
not past `t1`, and call `bcm_bt_lpm_exit_lpm_locked` at times
`t1 < t2 < ... < tn`, consecutive ones less than the idle delay (one second,
1000000000 ns) apart.  Observed at any time `t` from `t1` on: before
`tn + delay` the idle timer has not fired, `bt_lpm.bcm_wake` is 1 and the
host-to-chip wake GPIO is high; from `tn + delay` on the timer has fired
exactly once, at `tn + delay`, `bcm_wake` is 0, the GPIO is low and the timer
is not pending again. -/
theorem idle_timer_fires_once_after_last_call (s0 : BtState) (pdev t1 port : Nat)
    (rest : List (Nat × Nat)) (t : Nat)
    (hclock : s0.ktime ≤ t1)
    (hspaced : closelySpaced 1000000000 t1 rest = true)
    (ht : t1 ≤ t) :
    (postInit s0 pdev).enter_lpm_delay = 1000000000 ∧
    (t < lastCall t1 rest + 1000000000 →
      (stateAt (postInit s0 pdev) ((t1, port) :: rest) t).bcm_wake = 1 ∧
      (stateAt (postInit s0 pdev) ((t1, port) :: rest) t).gpio_bt_wake = true ∧
      firings (stateAt (postInit s0 pdev) ((t1, port) :: rest) t).log = firings s0.log) ∧
    (lastCall t1 rest + 1000000000 ≤ t →
      firings (stateAt (postInit s0 pdev) ((t1, port) :: rest) t).log
        = firings s0.log ++ [lastCall t1 rest + 1000000000] ∧
      (stateAt (postInit s0 pdev) ((t1, port) :: rest) t).bcm_wake = 0 ∧
      (stateAt (postInit s0 pdev) ((t1, port) :: rest) t).gpio_bt_wake = false ∧
      (stateAt (postInit s0 pdev) ((t1, port) :: rest) t).enter_lpm_timer = none) := by
  have hP := postInit_eq s0 pdev
  have hd : (postInit s0 pdev).enter_lpm_delay = 1000000000 := by rw [hP]
  have hk : (postInit s0 pdev).ktime = s0.ktime := by rw [hP]
  have htm : (postInit s0 pdev).enter_lpm_timer = none := by rw [hP]
  have hw : (postInit s0 pdev).bcm_wake ≠ 1 := by rw [hP]; simp
  have hf : firings (postInit s0 pdev).log = firings s0.log := by
    rw [hP]; simp [firings_append, firings]
  have hm : max (postInit s0 pdev).ktime t1 = t1 := by rw [hk]; exact max_eq_right hclock
  have hstart : stateAt (postInit s0 pdev) ((t1, port) :: rest) t
      = stateAt (bcm_bt_lpm_exit_lpm_locked { postInit s0 pdev with ktime := t1 } port)
          rest t := by
    simp only [stateAt]
    rw [if_pos ht, run_until_idle _ t1 htm, hm]
  obtain ⟨e1, e2, e3, e4, e5, e6⟩ :=
    exit_lpm_wakes { postInit s0 pdev with ktime := t1 } port hw
  have hmain := stateAt_awake 1000000000 rest
    (bcm_bt_lpm_exit_lpm_locked { postInit s0 pdev with ktime := t1 } port) t1 t
    (by rw [e1]; simp [hd]) (by rw [e2]; exact hd) e3 e4 e5 hspaced ht
  rw [e6] at hmain
  rw [hstart]
  refine ⟨hd, ?_, ?_⟩
  · intro hlt
    have := hmain.1 hlt
    exact ⟨this.1, this.2.1, by rw [this.2.2]; exact hf⟩
  · intro hle
    have := hmain.2 hle
    exact ⟨by rw [this.2.2.2]; simp [hf], this.1, this.2.1, this.2.2.1⟩

/-- Witness for C7: calls at 5 ns and 100 ns after boot; one nanosecond before
1000000100 ns the wake line is still asserted, and at 1000000100 ns the timer
has fired once, at that time. -/
theorem idle_timer_fires_once_after_last_call_witness :
    (stateAt (postInit (bootState true) 0) [(5, 1), (100, 1)] 1000000099).bcm_wake = 1 ∧
    firings (stateAt (postInit (bootState true) 0) [(5, 1), (100, 1)] 1000000100).log
      = [1000000100] ∧
    (stateAt (postInit (bootState true) 0) [(5, 1), (100, 1)] 1000000100).bcm_wake = 0 :=
  ⟨((idle_timer_fires_once_after_last_call (bootState true) 0 5 1 [(100, 1)] 1000000099
      (by decide) (by decide) (by decide)).2.1 (by decide)).1,
   ((idle_timer_fires_once_after_last_call (bootState true) 0 5 1 [(100, 1)] 1000000100
      (by decide) (by decide) (by decide)).2.2 (by decide)).1,
   ((idle_timer_fires_once_after_last_call (bootState true) 0 5 1 [(100, 1)] 1000000100
      (by decide) (by decide) (by decide)).2.2 (by decide)).2.1⟩

/-- C8: when `bt_lpm.host_wake` is non-zero, `set_host_wake_locked(0)` clears
it and leaves `host_wake_lock` as a time-bounded hold of exactly
`HOST_WAKE_TIMEOUT = HZ/2` jiffies, whatever hold there was before: with no
further call the lock blocks suspend after `elapsed` jiffies exactly when
`elapsed < HZ/2`.  It logs `omap_serial_ext_uart_disable` exactly when
`host_wake_uart_enabled` was true, then the one `wake_lock_timeout`, and no
`wake_unlock`. -/
theorem host_wake_deassert_timed_lock (HZ : Nat) (s : BtState) (h : s.host_wake ≠ 0) :
    (set_host_wake_locked HZ s 0).host_wake = 0 ∧
    (set_host_wake_locked HZ s 0).host_wake_lock = .timed (HOST_WAKE_TIMEOUT HZ) ∧
    HOST_WAKE_TIMEOUT HZ = HZ / 2 ∧
    (∀ elapsed : Nat, ((set_host_wake_locked HZ s 0).host_wake_lock.after elapsed).held
        = decide (elapsed < HZ / 2)) ∧
    emitted s (set_host_wake_locked HZ s 0) =
      (if s.host_wake_uart_enabled = true
        then [Event.omap_serial_ext_uart_disable 1] else [])
        ++ [Event.wake_lock_timeout .host_wake_lock (HZ / 2)] ∧
    (Event.omap_serial_ext_uart_disable 1 ∈ emitted s (set_host_wake_locked HZ s 0) ↔
      s.host_wake_uart_enabled = true) ∧
    Event.wake_unlock .host_wake_lock ∉ emitted s (set_host_wake_locked HZ s 0) ∧
    (set_host_wake_locked HZ s 0).host_wake_uart_enabled = false := by
  have h2 : ¬ (0 = s.host_wake) := fun e => h e.symm
  have hlog : emitted s (set_host_wake_locked HZ s 0) =
      (if s.host_wake_uart_enabled = true
        then [Event.omap_serial_ext_uart_disable 1] else [])
        ++ [Event.wake_lock_timeout .host_wake_lock (HZ / 2)] := by
    cases hu : s.host_wake_uart_enabled <;>
      simp [emitted, set_host_wake_locked_eq, h2, hu, HOST_WAKE_TIMEOUT]
  refine ⟨?_, ?_, rfl, ?_, hlog, ?_, ?_, ?_⟩
  · simp [set_host_wake_locked_eq, h2]
  · simp [set_host_wake_locked_eq, h2]
  · intro elapsed
    by_cases hd : elapsed < HZ / 2 <;>
      simp [set_host_wake_locked_eq, h2, HOST_WAKE_TIMEOUT, WakeLock.after, WakeLock.held, hd]
  · rw [hlog]; cases hu : s.host_wake_uart_enabled <;> simp
  · rw [hlog]; cases hu : s.host_wake_uart_enabled <;> simp
  · simp [set_host_wake_locked_eq, h2]

/-- Witness for C8: in `busyState` the host wake is asserted under a
persistent hold; deasserting it leaves a 64-jiffy timed hold at `HZ = 128`. -/
theorem host_wake_deassert_timed_lock_witness :
    busyState.host_wake_lock = .active ∧
    (set_host_wake_locked 128 busyState 0).host_wake_lock = .timed 64 ∧
    emitted busyState (set_host_wake_locked 128 busyState 0) =
      [Event.omap_serial_ext_uart_disable 1, Event.wake_lock_timeout .host_wake_lock 64] :=
  ⟨by decide,
   (host_wake_deassert_timed_lock 128 busyState (by decide)).2.1,
   by
    have h := (host_wake_deassert_timed_lock 128 busyState (by decide)).2.2.2.2.1
    rw [h]; decide⟩

/-- C9: `omap_prcm_store_and_clear_reset_sources` latches the value `r` read
from the reset-status register masked to 7 bits on OMAP24xx/34xx, to 11 bits
on OMAP44xx and to 15 bits on OMAP543x, so `omap_prcm_get_reset_sources()`
then returns `r & 0x7f`, `r & 0x7ff` or `r & 0x7fff`, below 2^7, 2^11 or 2^15;
the value written back to the register is that masked value; and no later
call of the other functions of the file changes what the accessor returns. -/
theorem reset_sources_latched (p : Platform) (st : PrcmState) (r : Nat) :
    ((p.cpu_is_omap24xx = true ∨ p.cpu_is_omap34xx = true) →
      omap_prcm_get_reset_sources (omap_prcm_store_and_clear_reset_sources p st r).1
        = r &&& 0x7f ∧
      omap_prcm_get_reset_sources (omap_prcm_store_and_clear_reset_sources p st r).1 < 2 ^ 7 ∧
      (omap_prcm_store_and_clear_reset_sources p st r).2 =
        [PrcmEvent.omap2_prm_read_mod_reg p.WKUP_MOD p.OMAP2_RM_RSTST,
         PrcmEvent.omap2_prm_write_mod_reg (r &&& 0x7f) p.WKUP_MOD p.OMAP2_RM_RSTST]) ∧
    (p.cpu_is_omap24xx = false → p.cpu_is_omap34xx = false → p.cpu_is_omap44xx = true →
      omap_prcm_get_reset_sources (omap_prcm_store_and_clear_reset_sources p st r).1
        = r &&& 0x7ff ∧
      omap_prcm_get_reset_sources (omap_prcm_store_and_clear_reset_sources p st r).1 < 2 ^ 11 ∧
      (omap_prcm_store_and_clear_reset_sources p st r).2 =
        [PrcmEvent.omap4_prm_read_inst_reg p.OMAP4430_PRM_DEVICE_INST p.OMAP4_PRM_RSTST_OFFSET,
         PrcmEvent.omap4_prm_write_inst_reg (r &&& 0x7ff) p.OMAP4430_PRM_DEVICE_INST
           p.OMAP4_PRM_RSTST_OFFSET]) ∧
    (p.cpu_is_omap24xx = false → p.cpu_is_omap34xx = false → p.cpu_is_omap44xx = false →
      p.cpu_is_omap543x = true →
      omap_prcm_get_reset_sources (omap_prcm_store_and_clear_reset_sources p st r).1
        = r &&& 0x7fff ∧
      omap_prcm_get_reset_sources (omap_prcm_store_and_clear_reset_sources p st r).1 < 2 ^ 15 ∧
      (omap_prcm_store_and_clear_reset_sources p st r).2 =
        [PrcmEvent.omap4_prm_read_inst_reg p.OMAP54XX_PRM_DEVICE_INST
           p.OMAP54XX_PRM_RSTST_OFFSET,
         PrcmEvent.omap4_prm_write_inst_reg (r &&& 0x7fff) p.OMAP54XX_PRM_DEVICE_INST
           p.OMAP54XX_PRM_RSTST_OFFSET]) ∧
    (∀ calls : List PrcmCall,
      omap_prcm_get_reset_sources
          (calls.foldl (PrcmCall.exec p) (omap_prcm_store_and_clear_reset_sources p st r).1)
        = omap_prcm_get_reset_sources (omap_prcm_store_and_clear_reset_sources p st r).1) := by
  refine ⟨?_, ?_, ?_, ?_⟩
  · intro h
    have hor : (p.cpu_is_omap24xx || p.cpu_is_omap34xx) = true := by
      rcases h with h | h <;> simp [h]
    have hb : r &&& 0x7f < 2 ^ 7 := Nat.and_lt_two_pow r (by decide)
    simp only [omap_prcm_store_and_clear_reset_sources, hor, if_true,
      omap_prcm_get_reset_sources]
    exact ⟨by trivial, hb, by trivial⟩
  · intro h24 h34 h44
    have hb : r &&& 0x7ff < 2 ^ 11 := Nat.and_lt_two_pow r (by decide)
    simp only [omap_prcm_store_and_clear_reset_sources, h24, h34, h44, Bool.or_self,
      if_true, omap_prcm_get_reset_sources]
    exact ⟨by trivial, hb, by trivial⟩
  · intro h24 h34 h44 h543
    have hb : r &&& 0x7fff < 2 ^ 15 := Nat.and_lt_two_pow r (by decide)
    simp only [omap_prcm_store_and_clear_reset_sources, h24, h34, h44, h543, Bool.or_self,
      if_true, omap_prcm_get_reset_sources]
    exact ⟨by trivial, hb, by trivial⟩
  · intro calls
    exact calls_reset_reason p calls _

/-- Witness for C9: on the sample OMAP5430 the register value `0xffffffff` is
latched as `0x7fff`. -/
theorem reset_sources_latched_witness :
    omap_prcm_get_reset_sources
      (omap_prcm_store_and_clear_reset_sources omap5430_es1 prcmBoot 4294967295).1 = 32767 :=
  ((reset_sources_latched omap5430_es1 prcmBoot 4294967295).2.2.1 rfl rfl rfl rfl).1.trans
    (by decide)

/-- C10: start with `bt_enabled == false` and make any finite sequence of
`bcm4330_bt_rfkill_set_power` calls.  At every point of the resulting log the
number of `regulator_enable` calls minus the number of `regulator_disable`
calls is 0 or 1 (so no disable comes without an enable before it); at the end
of the sequence it is 1 exactly when the regulator is present and
`bt_enabled` is true; `clk32kg_reg` is left as it was; and a further call
leaves `bt_enabled == !blocked`. -/
theorem regulator_enable_balance (HZ : Nat) (s : BtState) (calls : List Bool)
    (h : s.bt_enabled = false) :
    (∀ n : Nat,
      regulatorBalance ((emitted s (powerCalls HZ s calls)).take n) = 0 ∨
      regulatorBalance ((emitted s (powerCalls HZ s calls)).take n) = 1) ∧
    (regulatorBalance (emitted s (powerCalls HZ s calls)) = 1 ↔
      s.clk32kg_reg = true ∧ (powerCalls HZ s calls).bt_enabled = true) ∧
    (regulatorBalance (emitted s (powerCalls HZ s calls)) = 0 ∨
      regulatorBalance (emitted s (powerCalls HZ s calls)) = 1) ∧
    (powerCalls HZ s calls).clk32kg_reg = s.clk32kg_reg ∧
    (∀ blocked : Bool, (powerCalls HZ s (calls ++ [blocked])).bt_enabled = !blocked) := by
  obtain ⟨tr, hlog, hpre, hend⟩ := powerCalls_log HZ calls s
  have hem : emitted s (powerCalls HZ s calls) = tr := by
    simp [emitted, hlog]
  have h0 : regulatorHeld s = 0 := by simp [regulatorHeld, h]
  have hclk := powerCalls_clk HZ calls s
  rw [h0, zero_add] at hend
  simp only [h0, zero_add] at hpre
  rw [hem]
  refine ⟨hpre, ?_, ?_, hclk, ?_⟩
  · rw [hend, regulatorHeld, hclk]
    by_cases hc : s.clk32kg_reg = true ∧ (powerCalls HZ s calls).bt_enabled = true <;>
      simp [hc]
  · have := hpre tr.length
    simpa using this
  · intro blocked
    have : powerCalls HZ s (calls ++ [blocked])
        = bcm4330_bt_rfkill_set_power HZ (powerCalls HZ s calls) blocked := by
      simp [powerCalls]
    rw [this]
    exact (set_power_frame HZ _ blocked).2

/-- Witness for C10: from the boot state with the regulator present, the
calls unblock, block, unblock, unblock leave one enable outstanding. -/
theorem regulator_enable_balance_witness :
    regulatorBalance
      (emitted (bootState true) (powerCalls 128 (bootState true) [false, true, false, false]))
      = 1 :=
  (regulator_enable_balance 128 (bootState true) [false, true, false, false] rfl).2.1.mpr
    ⟨by decide, by decide⟩

end Notle
